import Mathlib

set_option maxHeartbeats 1000000

/-
Shallow embedding of the three FMOD HTML5 example scripts of this
repository:
  * src/assets/api/fmodstudioapi20226html5/api/studio/examples/simple_event.js
  * src/assets/api/fmodstudioapi20226html5/api/studio/examples/music_callbacks.js
  * src/unnamed/part_000 (a second copy of the simple-event script, adapted:
    two banks, two play buttons, and an iOS/Chrome resume-audio workaround)

The external FMOD engine is opaque: it is modelled as an oracle (`Env`)
that assigns to each engine call, by its position in the call sequence, a
result code and output values.  Each script function becomes a computation
in an explicit state-and-exception monad `JS`; the state records the
sequence of engine calls made (with the code each returned), the alert and
console.log output, the two display fields, registered timers and event
listeners, and the scripts' global variables.
-/

/-- The engine calls the example scripts make, with the arguments the
scripts pass.  Handles (system, event description, event instance, sound)
are modelled as integers. -/
inductive EngineCall where
  | studioSystemCreate : EngineCall
  | getCoreSystem : EngineCall
  | setDSPBufferSize (bufferlength numbuffers : Int) : EngineCall
  | getDriverInfo (id : Int) : EngineCall
  | setSoftwareFormat (samplerate speakermode numrawspeakers : Int) : EngineCall
  | initFmod (maxchannels studioflags flags : Int) : EngineCall
  | loadBankFile (filename : String) (flags : Int) : EngineCall
  | getEvent (path : String) : EngineCall
  | createInstance (desc : Int) : EngineCall
  | instStart (inst : Int) : EngineCall
  | instStop (inst : Int) (mode : Int) : EngineCall
  | instRelease (inst : Int) : EngineCall
  | loadSampleData (desc : Int) : EngineCall
  | setCallback (inst : Int) (mask : Int) : EngineCall
  | getParameterDescriptionByName (desc : Int) (pname : String) : EngineCall
  | setParameterByID (inst : Int) (pid : Int) (pvalue : Rat) (ignoreseekspeed : Bool) : EngineCall
  | getCPUUsage : EngineCall
  | getChannelsPlaying : EngineCall
  | getDSPBufferSize : EngineCall
  | getSoftwareFormat : EngineCall
  | systemUpdate : EngineCall
  | mixerSuspend : EngineCall
  | mixerResume : EngineCall
  | soundGetName (sound : Int) : EngineCall
  | soundGetLength (sound : Int) (unit : Int) : EngineCall
deriving DecidableEq

open EngineCall

/-- What the engine hands back for one call: the result code, up to two
integer out-parameters, the three CPU-usage figures, and a string
out-parameter (Sound::getName). -/
structure Response where
  code : Int
  out : Int
  out2 : Int
  cpuDsp : Rat
  cpuStream : Rat
  cpuUpdate : Rat
  outName : String
deriving DecidableEq

/-- The oracle for the opaque engine: the response to the n-th engine call
of the page when that call is `c`, the engine's error-string table
(FMOD.ErrorString), and whether the user agent is iOS (part_000's
navigator.userAgent test). -/
structure Env where
  respond : Nat → EngineCall → Response
  errorString : Int → String
  isIOS : Bool

/-- The scripts' global variables (union over the three files; each file
touches only its own).  gProgression is a parameter value, gAudioResumed
the part_000 resume flag; the rest are engine handles. -/
structure Globals where
  gSystem : Int
  gSystemCore : Int
  explosionDescription : Int
  loopingAmbienceInstance : Int
  cancelInstance : Int
  gEventInstance : Int
  gProgression : Rat
  gProgressionID : Int
  gAudioResumed : Bool
deriving DecidableEq

/-- The page state threaded through a script run: the globals, how many
engine calls were made (the oracle's position), the engine-call trace (each
call with the code it returned), alert and console output, the two display
fields, timers started with setInterval, and registered event listeners. -/
structure ExecState where
  globals : Globals
  idx : Nat
  trace : List (EngineCall × Int)
  alerts : List String
  logs : List String
  displayOut : String
  displayOut2 : String
  timers : List (String × Nat)
  listeners : List String
  domDisabled : List (String × Bool)
deriving DecidableEq

/-- A script computation: from a state, either a thrown message together
with the state at the throw, or a value and the new state. -/
def JS (α : Type) : Type := ExecState → Except (String × ExecState) (α × ExecState)

def JS.pure {α : Type} (a : α) : JS α := fun s => Except.ok (a, s)

def JS.bind {α β : Type} (m : JS α) (f : α → JS β) : JS β := fun s =>
  match m s with
  | Except.ok (a, s₁) => f a s₁
  | Except.error e => Except.error e

instance : Monad JS where
  pure := JS.pure
  bind := JS.bind

/-- Make one engine call: ask the oracle at the current position and record
the call with its result code in the trace. -/
def engineCall (env : Env) (c : EngineCall) : JS Response := fun s =>
  let r := env.respond s.idx c
  Except.ok (r, { s with idx := s.idx + 1, trace := s.trace ++ [(c, r.code)] })

namespace FMOD

def OK : Int := 0

def SPEAKERMODE_DEFAULT : Int := 0

def STUDIO_INIT_NORMAL : Int := 0

def INIT_NORMAL : Int := 0

def STUDIO_LOAD_BANK_NORMAL : Int := 0

def STUDIO_STOP_IMMEDIATE : Int := 1

def TIMEUNIT_MS : Int := 1

def STUDIO_EVENT_CALLBACK_TIMELINE_MARKER : Int := 2048

def STUDIO_EVENT_CALLBACK_TIMELINE_BEAT : Int := 4096

def STUDIO_EVENT_CALLBACK_SOUND_PLAYED : Int := 8192

def STUDIO_EVENT_CALLBACK_SOUND_STOPPED : Int := 16384

end FMOD

/-- Embedding of CHECK_RESULT, identical in all three files: any result
other than FMOD.OK builds the error message (with the engine's error
string), surfaces it with alert, and throws it; FMOD.OK does nothing. -/
def CHECK_RESULT (env : Env) (result : Int) : JS Unit := fun s =>
  if result ≠ FMOD.OK then
    let msg := "Error!!! '" ++ env.errorString result ++ "'"
    Except.error (msg, { s with alerts := s.alerts ++ [msg] })
  else
    Except.ok ((), s)

/-- console.log of a plain string. -/
def consoleLog (msg : String) : JS Unit := fun s =>
  Except.ok ((), { s with logs := s.logs ++ [msg] })

/-- console.log with a format string and arguments; the printf-style
substitution is abstracted as recording the format followed by the
rendered arguments. -/
def consoleLogFmt (fmt : String) (args : List String) : JS Unit :=
  consoleLog (String.intercalate " " (fmt :: args))

/-- Assignment to document.querySelector("#display_out").value. -/
def setDisplayOut (v : String) : JS Unit := fun s =>
  Except.ok ((), { s with displayOut := v })

/-- Assignment to document.querySelector("#display_out2").value. -/
def setDisplayOut2 (v : String) : JS Unit := fun s =>
  Except.ok ((), { s with displayOut2 := v })

/-- Assignment to document.getElementById(id).disabled. -/
def setElementDisabled (id : String) (b : Bool) : JS Unit := fun s =>
  Except.ok ((), { s with domDisabled := s.domDisabled ++ [(id, b)] })

/-- window.setInterval(callback, ms), recorded by the callback's name. -/
def setIntervalTimer (callback : String) (ms : Nat) : JS Unit := fun s =>
  Except.ok ((), { s with timers := s.timers ++ [(callback, ms)] })

/-- window.addEventListener / document.addEventListener registration. -/
def addListener (name : String) : JS Unit := fun s =>
  Except.ok ((), { s with listeners := s.listeners ++ [name] })

def getGlobals : JS Globals := fun s => Except.ok (s.globals, s)

def modifyGlobals (f : Globals → Globals) : JS Unit := fun s =>
  Except.ok ((), { s with globals := f s.globals })

/-- Embedding of JavaScript's Number.prototype.toFixed(2) on the rationals
that model the scripts' numbers: two decimal digits, rounding to nearest
(half up on the scaled value). -/
def toFixed2 (q : Rat) : String :=
  let n : Int := (q * 100 + 1 / 2).floor
  let a : Nat := n.natAbs
  let sign : String := if n < 0 then "-" else ""
  let frac : Nat := a % 100
  let fracStr : String := if frac < 10 then "0" ++ toString frac else toString frac
  sign ++ toString (a / 100) ++ "." ++ fracStr

namespace SimpleEvent

/-- Embedding of loadBank from simple_event.js (lines 162-166). -/
def loadBank (env : Env) (name : String) : JS Unit := do
  let r ← engineCall env (loadBankFile ("/" ++ name) FMOD.STUDIO_LOAD_BANK_NORMAL)
  CHECK_RESULT env r.code

/-- Embedding of initApplication from simple_event.js (lines 169-200):
loads the three banks, builds the looping-ambience and cancel instances,
fetches the explosion description and loads its sample data, then
re-enables the four buttons. -/
def initApplication (env : Env) : JS Unit := do
  consoleLog "Loading events\n"
  loadBank env "Master.bank"
  loadBank env "Master.strings.bank"
  loadBank env "SFX.bank"
  let d1 ← engineCall env (getEvent "event:/Ambience/Country")
  CHECK_RESULT env d1.code
  let i1 ← engineCall env (createInstance d1.out)
  CHECK_RESULT env i1.code
  modifyGlobals (fun g => { g with loopingAmbienceInstance := i1.out })
  let d2 ← engineCall env (getEvent "event:/UI/Cancel")
  CHECK_RESULT env d2.code
  let i2 ← engineCall env (createInstance d2.out)
  CHECK_RESULT env i2.code
  modifyGlobals (fun g => { g with cancelInstance := i2.out })
  let d3 ← engineCall env (getEvent "event:/Weapons/Explosion")
  CHECK_RESULT env d3.code
  modifyGlobals (fun g => { g with explosionDescription := d3.out })
  let g ← getGlobals
  let r ← engineCall env (loadSampleData g.explosionDescription)
  CHECK_RESULT env r.code
  setElementDisabled "playEvent0" false
  setElementDisabled "playEvent1" false
  setElementDisabled "playEvent2" false
  setElementDisabled "playEvent3" false

/-- Embedding of playEvent from simple_event.js (lines 135-159): soundid 0
plays the explosion one-shot (create, start, release), 1 starts and 2 stops
the looping ambience, 3 starts the cancel instance; any other soundid takes
no branch. -/
def playEvent (env : Env) (soundid : Int) : JS Unit := do
  if soundid = 0 then
    let g ← getGlobals
    let e ← engineCall env (createInstance g.explosionDescription)
    CHECK_RESULT env e.code
    let r1 ← engineCall env (instStart e.out)
    CHECK_RESULT env r1.code
    let r2 ← engineCall env (instRelease e.out)
    CHECK_RESULT env r2.code
  else if soundid = 1 then
    let g ← getGlobals
    let r ← engineCall env (instStart g.loopingAmbienceInstance)
    CHECK_RESULT env r.code
  else if soundid = 2 then
    let g ← getGlobals
    let r ← engineCall env (instStop g.loopingAmbienceInstance FMOD.STUDIO_STOP_IMMEDIATE)
    CHECK_RESULT env r.code
  else if soundid = 3 then
    let g ← getGlobals
    let r ← engineCall env (instStart g.cancelInstance)
    CHECK_RESULT env r.code
  else
    pure ()

/-- Embedding of updateApplication from simple_event.js (lines 204-242):
query CPU usage and channels playing, write display_out, query DSP buffer
size, software format and driver info, write display_out2, then call
System::update once. -/
def updateApplication (env : Env) : JS Unit := do
  let cpu ← engineCall env getCPUUsage
  CHECK_RESULT env cpu.code
  let channelsplaying ← engineCall env getChannelsPlaying
  CHECK_RESULT env channelsplaying.code
  setDisplayOut ("Channels Playing = " ++ toString channelsplaying.out ++
    " : CPU = dsp " ++ toFixed2 cpu.cpuDsp ++
    "% stream " ++ toFixed2 cpu.cpuStream ++
    "% update " ++ toFixed2 cpu.cpuUpdate ++
    "% total " ++ toFixed2 (cpu.cpuDsp + cpu.cpuStream + cpu.cpuUpdate) ++
    "%")
  let buf ← engineCall env getDSPBufferSize
  CHECK_RESULT env buf.code
  let rate ← engineCall env getSoftwareFormat
  CHECK_RESULT env rate.code
  let sysrate ← engineCall env (getDriverInfo 0)
  CHECK_RESULT env sysrate.code
  let ms : Rat := ((buf.out2 * buf.out * 1000 : Int) : Rat) / ((rate.out : Int) : Rat)
  setDisplayOut2 ("Mixer rate = " ++ toString rate.out ++ "hz : System rate = " ++
    toString sysrate.out ++ "hz : DSP buffer size = " ++ toString buf.out2 ++
    " buffers of " ++ toString buf.out ++ " samples (" ++ toFixed2 ms ++ " ms)")
  let r ← engineCall env systemUpdate
  CHECK_RESULT env r.code

/-- Embedding of main from simple_event.js (lines 79-132): create the
studio system, grab the core system, set the DSP buffer size (2048, 2),
read the driver's output rate and set the software format to it,
initialize with 1024 virtual channels, run initApplication, then start the
20 ms update timer. -/
def main (env : Env) : JS Int := do
  consoleLog "Creating FMOD System object\n"
  let sys ← engineCall env studioSystemCreate
  CHECK_RESULT env sys.code
  consoleLog "grabbing system object from temporary and storing it\n"
  modifyGlobals (fun g => { g with gSystem := sys.out })
  let core ← engineCall env getCoreSystem
  CHECK_RESULT env core.code
  modifyGlobals (fun g => { g with gSystemCore := core.out })
  consoleLog "set DSP Buffer size.\n"
  let r1 ← engineCall env (setDSPBufferSize 2048 2)
  CHECK_RESULT env r1.code
  consoleLog "Set mixer sample rate"
  let drv ← engineCall env (getDriverInfo 0)
  CHECK_RESULT env drv.code
  let r2 ← engineCall env (setSoftwareFormat drv.out FMOD.SPEAKERMODE_DEFAULT 0)
  CHECK_RESULT env r2.code
  consoleLog "initialize FMOD\n"
  let r3 ← engineCall env (initFmod 1024 FMOD.STUDIO_INIT_NORMAL FMOD.INIT_NORMAL)
  CHECK_RESULT env r3.code
  consoleLog "initialize Application\n"
  initApplication env
  consoleLog "Start game loop\n"
  setIntervalTimer "updateApplication" 20
  pure FMOD.OK

end SimpleEvent

/-- The argument object handed to the music_callbacks.js callback: the
script reads property name (timeline marker), beat, bar, tempo and the
time signature (timeline beat), or treats it as a sound handle (sound
played/stopped).  JavaScript passes one dynamic object; the embedding
carries all the fields the script may read. -/
structure CallbackParams where
  pname : String
  beat : Int
  bar : Int
  tempo : Rat
  timesignatureupper : Int
  timesignaturelower : Int
  sound : Int
deriving DecidableEq

namespace MusicCallbacks

/-- Embedding of loadBank from music_callbacks.js (lines 140-144). -/
def loadBank (env : Env) (name : String) : JS Unit := do
  let r ← engineCall env (loadBankFile ("/" ++ name) FMOD.STUDIO_LOAD_BANK_NORMAL)
  CHECK_RESULT env r.code

/-- Embedding of markerCallback from music_callbacks.js (lines 146-180):
a timeline marker or beat only logs its properties; a sound played/stopped
event queries the sound's name and length and logs them; any other type
takes no branch.  Every path returns FMOD.OK. -/
def markerCallback (env : Env) (type : Int) (event : Int) (parameters : CallbackParams) :
    JS Int := do
  if type = FMOD.STUDIO_EVENT_CALLBACK_TIMELINE_MARKER then
    consoleLogFmt "Named marker '%s'" [parameters.pname]
  else if type = FMOD.STUDIO_EVENT_CALLBACK_TIMELINE_BEAT then
    consoleLogFmt "beat %d, bar %d (tempo %.1f %d:%d)"
      [toString parameters.beat, toString parameters.bar, toString parameters.tempo,
       toString parameters.timesignatureupper, toString parameters.timesignaturelower]
  else if type = FMOD.STUDIO_EVENT_CALLBACK_SOUND_PLAYED ∨
      type = FMOD.STUDIO_EVENT_CALLBACK_SOUND_STOPPED then
    let n ← engineCall env (soundGetName parameters.sound)
    CHECK_RESULT env n.code
    let len ← engineCall env (soundGetLength parameters.sound FMOD.TIMEUNIT_MS)
    CHECK_RESULT env len.code
    consoleLogFmt "Sound '%s' (length %.3f) %s"
      [n.outName, toString (((len.out : Int) : Rat) / 1000),
       if type = FMOD.STUDIO_EVENT_CALLBACK_SOUND_PLAYED then "Started" else "Stopped"]
  pure FMOD.OK

/-- Embedding of toggleProgression from music_callbacks.js (lines 130-137):
flip gProgression between 0 and 1, push it to the engine through
setParameterByID, and log the new value. -/
def toggleProgression (env : Env) : JS Unit := do
  modifyGlobals (fun g => { g with gProgression := if g.gProgression = 0 then 1 else 0 })
  let g ← getGlobals
  let r ← engineCall env (setParameterByID g.gEventInstance g.gProgressionID g.gProgression false)
  CHECK_RESULT env r.code
  consoleLog ("------------- TOGGLED PROGRESSION TO " ++ toString g.gProgression)

/-- Embedding of initApplication from music_callbacks.js (lines 183-214):
load the three banks, build the music event instance, register the
callback (the source's FMOD.DSTUDIO_EVENT_CALLBACK_TIMELINE_MARKER is an
undefined property, so it contributes 0 to the mask), start the instance,
read the Progression parameter id and set the parameter, then re-enable
the toggle button. -/
def initApplication (env : Env) : JS Unit := do
  consoleLog "Loading events\n"
  loadBank env "Master.bank"
  loadBank env "Master.strings.bank"
  loadBank env "Music.bank"
  let d ← engineCall env (getEvent "event:/Music/Level 01")
  CHECK_RESULT env d.code
  let i ← engineCall env (createInstance d.out)
  CHECK_RESULT env i.code
  modifyGlobals (fun g => { g with gEventInstance := i.out })
  let g1 ← getGlobals
  let r1 ← engineCall env (setCallback g1.gEventInstance
    (0 + FMOD.STUDIO_EVENT_CALLBACK_TIMELINE_BEAT +
     FMOD.STUDIO_EVENT_CALLBACK_SOUND_PLAYED + FMOD.STUDIO_EVENT_CALLBACK_SOUND_STOPPED))
  CHECK_RESULT env r1.code
  let r2 ← engineCall env (instStart g1.gEventInstance)
  CHECK_RESULT env r2.code
  let p ← engineCall env (getParameterDescriptionByName d.out "Progression")
  CHECK_RESULT env p.code
  modifyGlobals (fun g => { g with gProgressionID := p.out })
  let g2 ← getGlobals
  let r3 ← engineCall env (setParameterByID g2.gEventInstance g2.gProgressionID g2.gProgression false)
  CHECK_RESULT env r3.code
  setElementDisabled "toggleid" false

/-- Embedding of updateApplication from music_callbacks.js (lines 218-256):
query CPU usage and channels playing, write display_out, query DSP buffer
size, software format and driver info, write display_out2, then call
System::update once. -/
def updateApplication (env : Env) : JS Unit := do
  let cpu ← engineCall env getCPUUsage
  CHECK_RESULT env cpu.code
  let channelsplaying ← engineCall env getChannelsPlaying
  CHECK_RESULT env channelsplaying.code
  setDisplayOut ("Channels Playing = " ++ toString channelsplaying.out ++
    " : CPU = dsp " ++ toFixed2 cpu.cpuDsp ++
    "% stream " ++ toFixed2 cpu.cpuStream ++
    "% update " ++ toFixed2 cpu.cpuUpdate ++
    "% total " ++ toFixed2 (cpu.cpuDsp + cpu.cpuStream + cpu.cpuUpdate) ++
    "%")
  let buf ← engineCall env getDSPBufferSize
  CHECK_RESULT env buf.code
  let rate ← engineCall env getSoftwareFormat
  CHECK_RESULT env rate.code
  let sysrate ← engineCall env (getDriverInfo 0)
  CHECK_RESULT env sysrate.code
  let ms : Rat := ((buf.out2 * buf.out * 1000 : Int) : Rat) / ((rate.out : Int) : Rat)
  setDisplayOut2 ("Mixer rate = " ++ toString rate.out ++ "hz : System rate = " ++
    toString sysrate.out ++ "hz : DSP buffer size = " ++ toString buf.out2 ++
    " buffers of " ++ toString buf.out ++ " samples (" ++ toFixed2 ms ++ " ms)")
  let r ← engineCall env systemUpdate
  CHECK_RESULT env r.code

/-- Embedding of main from music_callbacks.js (lines 74-127): as in
simple_event.js but with the driver-info / software-format step commented
out in the source, so it goes straight from the DSP buffer size to
initializing the engine. -/
def main (env : Env) : JS Int := do
  consoleLog "Creating FMOD System object\n"
  let sys ← engineCall env studioSystemCreate
  CHECK_RESULT env sys.code
  consoleLog "grabbing system object from temporary and storing it\n"
  modifyGlobals (fun g => { g with gSystem := sys.out })
  let core ← engineCall env getCoreSystem
  CHECK_RESULT env core.code
  modifyGlobals (fun g => { g with gSystemCore := core.out })
  consoleLog "set DSP Buffer size.\n"
  let r1 ← engineCall env (setDSPBufferSize 2048 2)
  CHECK_RESULT env r1.code
  consoleLog "initialize FMOD\n"
  let r3 ← engineCall env (initFmod 1024 FMOD.STUDIO_INIT_NORMAL FMOD.INIT_NORMAL)
  CHECK_RESULT env r3.code
  consoleLog "initialize Application\n"
  initApplication env
  consoleLog "Start game loop\n"
  setIntervalTimer "updateApplication" 20
  pure FMOD.OK

end MusicCallbacks

namespace Part000

/-- Embedding of loadBank from src/unnamed/part_000 (lines 173-177). -/
def loadBank (env : Env) (name : String) : JS Unit := do
  let r ← engineCall env (loadBankFile ("/" ++ name) FMOD.STUDIO_LOAD_BANK_NORMAL)
  CHECK_RESULT env r.code

/-- Embedding of initApplication from part_000 (lines 180-196): load the
two banks, build the looping-ambience instance from event:/Music, then
re-enable the two buttons. -/
def initApplication (env : Env) : JS Unit := do
  consoleLog "Loading events\n"
  loadBank env "Master.bank"
  loadBank env "Master.strings.bank"
  let d ← engineCall env (getEvent "event:/Music")
  CHECK_RESULT env d.code
  let i ← engineCall env (createInstance d.out)
  CHECK_RESULT env i.code
  modifyGlobals (fun g => { g with loopingAmbienceInstance := i.out })
  setElementDisabled "playEvent0" false
  setElementDisabled "playEvent1" false

/-- Embedding of playEvent from part_000 (lines 160-170): soundid 0 starts
and 1 stops the looping ambience; any other soundid takes no branch. -/
def playEvent (env : Env) (soundid : Int) : JS Unit := do
  if soundid = 0 then
    let g ← getGlobals
    let r ← engineCall env (instStart g.loopingAmbienceInstance)
    CHECK_RESULT env r.code
  else if soundid = 1 then
    let g ← getGlobals
    let r ← engineCall env (instStop g.loopingAmbienceInstance FMOD.STUDIO_STOP_IMMEDIATE)
    CHECK_RESULT env r.code
  else
    pure ()

/-- Embedding of the resumeAudio closure defined inside part_000's main
(lines 126-139): when gAudioResumed is still false, suspend and resume the
mixer and set the flag; otherwise do nothing. -/
def resumeAudio (env : Env) : JS Unit := do
  let g ← getGlobals
  if !g.gAudioResumed then
    let r1 ← engineCall env mixerSuspend
    CHECK_RESULT env r1.code
    let r2 ← engineCall env mixerResume
    CHECK_RESULT env r2.code
    modifyGlobals (fun g2 => { g2 with gAudioResumed := true })

/-- Embedding of updateApplication from part_000 (lines 200-237):
query CPU usage and channels playing, write display_out, query DSP buffer
size, software format and driver info, write display_out2, then call
System::update once. -/
def updateApplication (env : Env) : JS Unit := do
  let cpu ← engineCall env getCPUUsage
  CHECK_RESULT env cpu.code
  let channelsplaying ← engineCall env getChannelsPlaying
  CHECK_RESULT env channelsplaying.code
  setDisplayOut ("Channels Playing = " ++ toString channelsplaying.out ++
    " : CPU = dsp " ++ toFixed2 cpu.cpuDsp ++
    "% stream " ++ toFixed2 cpu.cpuStream ++
    "% update " ++ toFixed2 cpu.cpuUpdate ++
    "% total " ++ toFixed2 (cpu.cpuDsp + cpu.cpuStream + cpu.cpuUpdate) ++
    "%")
  let buf ← engineCall env getDSPBufferSize
  CHECK_RESULT env buf.code
  let rate ← engineCall env getSoftwareFormat
  CHECK_RESULT env rate.code
  let sysrate ← engineCall env (getDriverInfo 0)
  CHECK_RESULT env sysrate.code
  let ms : Rat := ((buf.out2 * buf.out * 1000 : Int) : Rat) / ((rate.out : Int) : Rat)
  setDisplayOut2 ("Mixer rate = " ++ toString rate.out ++ "hz : System rate = " ++
    toString sysrate.out ++ "hz : DSP buffer size = " ++ toString buf.out2 ++
    " buffers of " ++ toString buf.out ++ " samples (" ++ toFixed2 ms ++ " ms)")
  let r ← engineCall env systemUpdate
  CHECK_RESULT env r.code

/-- Embedding of main from part_000 (lines 78-157): as in simple_event.js,
with the resume-audio listener (touchend on iOS, click elsewhere)
registered between initApplication and the 20 ms update timer. -/
def main (env : Env) : JS Int := do
  consoleLog "Creating FMOD System object\n"
  let sys ← engineCall env studioSystemCreate
  CHECK_RESULT env sys.code
  consoleLog "grabbing system object from temporary and storing it\n"
  modifyGlobals (fun g => { g with gSystem := sys.out })
  let core ← engineCall env getCoreSystem
  CHECK_RESULT env core.code
  modifyGlobals (fun g => { g with gSystemCore := core.out })
  consoleLog "set DSP Buffer size.\n"
  let r1 ← engineCall env (setDSPBufferSize 2048 2)
  CHECK_RESULT env r1.code
  consoleLog "Set mixer sample rate"
  let drv ← engineCall env (getDriverInfo 0)
  CHECK_RESULT env drv.code
  let r2 ← engineCall env (setSoftwareFormat drv.out FMOD.SPEAKERMODE_DEFAULT 0)
  CHECK_RESULT env r2.code
  consoleLog "initialize FMOD\n"
  let r3 ← engineCall env (initFmod 1024 FMOD.STUDIO_INIT_NORMAL FMOD.INIT_NORMAL)
  CHECK_RESULT env r3.code
  consoleLog "initialize Application\n"
  initApplication env
  if env.isIOS then
    addListener "touchend resumeAudio"
  else
    addListener "click resumeAudio"
  consoleLog "Start game loop\n"
  setIntervalTimer "updateApplication" 20
  pure FMOD.OK

end Part000

/-- The state a computation leaves behind, whether it returns or throws. -/
def stateAfter {α : Type} (m : JS α) (s : ExecState) : ExecState :=
  match m s with
  | Except.ok (_, s₁) => s₁
  | Except.error (_, s₁) => s₁

/-- Every recorded engine call returned FMOD.OK. -/
def allOk (t : List (EngineCall × Int)) : Bool :=
  t.all (fun p => p.2 == FMOD.OK)

/-- Every recorded engine call but the last returned FMOD.OK, and the last
did not: the shape of a trace cut short by a failed check. -/
def failedLast : List (EngineCall × Int) → Bool
  | [] => false
  | [p] => p.2 != FMOD.OK
  | p :: q :: t => (p.2 == FMOD.OK) && failedLast (q :: t)

/-- From state s, the computation either succeeds with a trace of calls
that all returned FMOD.OK, or throws with the failed call last in the
trace and nothing after it. -/
def AbortsOn {α : Type} (m : JS α) (s : ExecState) : Prop :=
  match m s with
  | Except.ok (_, s₁) => allOk s₁.trace = true
  | Except.error (_, s₁) => failedLast s₁.trace = true

/-- The computation aborts at its first failed engine call: started from
any state with an all-OK trace, it either keeps the trace all-OK or throws
with the failed call last. -/
def Aborts {α : Type} (m : JS α) : Prop :=
  ∀ s, allOk s.trace = true → AbortsOn m s

/-- The computation always returns and never touches the engine-call
trace (console, DOM, globals and timer effects only). -/
def TraceNeutral {α : Type} (m : JS α) : Prop :=
  ∀ s, ∃ a s₁, m s = Except.ok (a, s₁) ∧ s₁.trace = s.trace

/-- The global handle variables agree: the studio and core system handles,
the event description/instance handles and the Progression parameter id
(everything global except gProgression and gAudioResumed). -/
def sameHandles (g g₁ : Globals) : Prop :=
  g₁.gSystem = g.gSystem ∧ g₁.gSystemCore = g.gSystemCore ∧
  g₁.explosionDescription = g.explosionDescription ∧
  g₁.loopingAmbienceInstance = g.loopingAmbienceInstance ∧
  g₁.cancelInstance = g.cancelInstance ∧ g₁.gEventInstance = g.gEventInstance ∧
  g₁.gProgressionID = g.gProgressionID

/-- The computation leaves every global handle variable as it found it,
whether it returns or throws. -/
def HandleFrame {α : Type} (m : JS α) : Prop :=
  ∀ s, sameHandles s.globals (stateAfter m s).globals

/-- The read-only engine queries markerCallback makes on its sound
argument. -/
def readOnlyCall : EngineCall → Bool
  | soundGetName _ => true
  | soundGetLength _ _ => true
  | _ => false

/-- A successful run of the computation advances the oracle position by n,
appends to the trace exactly the calls `δ i g` (a function of the starting
oracle position i and the starting globals g), turns the globals into
`G i g`, and appends exactly `t` to the timers. -/
def OkRun {α : Type} (m : JS α) (n : Nat)
    (δ : Nat → Globals → List (EngineCall × Int))
    (G : Nat → Globals → Globals) (t : List (String × Nat)) : Prop :=
  ∀ s v s₁, m s = Except.ok (v, s₁) →
    s₁.idx = s.idx + n ∧ s₁.trace = s.trace ++ δ s.idx s.globals ∧
    s₁.globals = G s.idx s.globals ∧ s₁.timers = s.timers ++ t

/-- A throwing run leaves the timers untouched. -/
def ErrTimer {α : Type} (m : JS α) : Prop :=
  ∀ s msg s₁, m s = Except.error (msg, s₁) → s₁.timers = s.timers

/-- A successful run leaves the timers untouched. -/
def OkTimer {α : Type} (m : JS α) : Prop :=
  ∀ s v s₁, m s = Except.ok (v, s₁) → s₁.timers = s.timers

/-- The computation never touches the timers, whether it returns or
throws. -/
def TimerNeutral {α : Type} (m : JS α) : Prop :=
  OkTimer m ∧ ErrTimer m

/-- The frame of a display-only callback: whether it returns or throws, it
leaves the globals, the timers, both display fields and the button states
untouched, and the only engine calls it adds to the trace are read-only
queries. -/
def CbFrame {α : Type} (m : JS α) : Prop :=
  ∀ s, (stateAfter m s).globals = s.globals ∧ (stateAfter m s).timers = s.timers ∧
    (stateAfter m s).displayOut = s.displayOut ∧
    (stateAfter m s).displayOut2 = s.displayOut2 ∧
    (stateAfter m s).domDisabled = s.domDisabled ∧
    ∃ t, (stateAfter m s).trace = s.trace ++ t ∧ t.all (fun q => readOnlyCall q.1) = true

/-- The engine calls of one successful updateApplication tick, in order:
the five statistics queries and then the single System::update, each
returning FMOD.OK. -/
def updateTickCalls : List (EngineCall × Int) :=
  [(getCPUUsage, FMOD.OK), (getChannelsPlaying, FMOD.OK),
   (getDSPBufferSize, FMOD.OK), (getSoftwareFormat, FMOD.OK),
   (getDriverInfo 0, FMOD.OK), (systemUpdate, FMOD.OK)]

/-- The engine calls main makes before initApplication when every call
succeeds, starting at oracle position idx: create the studio system, get
the core system, set the DSP buffer size to 2 buffers of 2048 samples,
read the driver's output rate, set the software format to that rate, and
initialize with 1024 virtual channels. -/
def mainSetupCalls (env : Env) (idx : Nat) : List (EngineCall × Int) :=
  [(studioSystemCreate, FMOD.OK), (getCoreSystem, FMOD.OK),
   (setDSPBufferSize 2048 2, FMOD.OK), (getDriverInfo 0, FMOD.OK),
   (setSoftwareFormat (env.respond (idx + 3) (getDriverInfo 0)).out
      FMOD.SPEAKERMODE_DEFAULT 0, FMOD.OK),
   (initFmod 1024 FMOD.STUDIO_INIT_NORMAL FMOD.INIT_NORMAL, FMOD.OK)]

/-- The engine calls of simple_event.js's initApplication when every call
succeeds, starting at oracle position idx: the three bank loads, the
three getEvent/createInstance steps and the explosion sample-data load. -/
def simpleEventInitCalls (env : Env) (idx : Nat) : List (EngineCall × Int) :=
  [(loadBankFile "/Master.bank" FMOD.STUDIO_LOAD_BANK_NORMAL, FMOD.OK),
   (loadBankFile "/Master.strings.bank" FMOD.STUDIO_LOAD_BANK_NORMAL, FMOD.OK),
   (loadBankFile "/SFX.bank" FMOD.STUDIO_LOAD_BANK_NORMAL, FMOD.OK),
   (getEvent "event:/Ambience/Country", FMOD.OK),
   (createInstance (env.respond (idx + 3) (getEvent "event:/Ambience/Country")).out, FMOD.OK),
   (getEvent "event:/UI/Cancel", FMOD.OK),
   (createInstance (env.respond (idx + 5) (getEvent "event:/UI/Cancel")).out, FMOD.OK),
   (getEvent "event:/Weapons/Explosion", FMOD.OK),
   (loadSampleData (env.respond (idx + 7) (getEvent "event:/Weapons/Explosion")).out, FMOD.OK)]

/-- The engine calls of part_000's initApplication when every call
succeeds, starting at oracle position idx: the two bank loads and the
getEvent/createInstance pair for event:/Music. -/
def part000InitCalls (env : Env) (idx : Nat) : List (EngineCall × Int) :=
  [(loadBankFile "/Master.bank" FMOD.STUDIO_LOAD_BANK_NORMAL, FMOD.OK),
   (loadBankFile "/Master.strings.bank" FMOD.STUDIO_LOAD_BANK_NORMAL, FMOD.OK),
   (getEvent "event:/Music", FMOD.OK),
   (createInstance (env.respond (idx + 2) (getEvent "event:/Music")).out, FMOD.OK)]

/-- One click/touch invocation of part_000's resumeAudio handler: the
state it leaves, whether the handler returns or throws (a thrown exception
leaves the handler but does not stop later invocations). -/
def resumeClick (env : Env) (s : ExecState) : ExecState :=
  stateAfter (Part000.resumeAudio env) s

/-- n successive invocations of resumeAudio. -/
def resumeClicks (env : Env) : Nat → ExecState → ExecState
  | 0, s => s
  | n + 1, s => resumeClicks env n (resumeClick env s)

/-- How many completed mixerSuspend/mixerResume pairs a trace holds: a
pair completes exactly when its mixerResume call returns FMOD.OK. -/
def pairCount (t : List (EngineCall × Int)) : Nat :=
  (t.filter (fun p => p.1 == mixerResume && p.2 == FMOD.OK)).length

/-- A concrete oracle on which every engine call succeeds. -/
def envOK : Env :=
  { respond := fun _ _ =>
      { code := 0, out := 1, out2 := 2, cpuDsp := 0, cpuStream := 0,
        cpuUpdate := 0, outName := "snd" },
    errorString := fun _ => "err", isIOS := false }

/-- The globals as the page starts. -/
def Globals0 : Globals :=
  { gSystem := 0, gSystemCore := 0, explosionDescription := 0,
    loopingAmbienceInstance := 0, cancelInstance := 0, gEventInstance := 0,
    gProgression := 0, gProgressionID := 0, gAudioResumed := false }

/-- A concrete start state: fresh page, empty trace. -/
def ExecState0 : ExecState :=
  { globals := Globals0, idx := 0, trace := [], alerts := [], logs := [],
    displayOut := "", displayOut2 := "", timers := [], listeners := [],
    domDisabled := [] }

theorem jsBind_def {α β : Type} (m : JS α) (f : α → JS β) : m >>= f = JS.bind m f := rfl

theorem jsPure_def {α : Type} (a : α) : (pure a : JS α) = JS.pure a := rfl

theorem jsBind_assoc {α β γ : Type} (m : JS α) (f : α → JS β) (g : β → JS γ) :
    JS.bind (JS.bind m f) g = JS.bind m (fun a => JS.bind (f a) g) := by
  funext s
  unfold JS.bind
  cases m s with
  | ok x => rfl
  | error e => rfl

theorem jsPure_apply {α : Type} (a : α) (s : ExecState) : JS.pure a s = Except.ok (a, s) := rfl

theorem bind_pure_apply {α β : Type} (a : α) (k : α → JS β) (s : ExecState) :
    JS.bind (JS.pure a) k s = k a s := rfl

theorem engineCall_apply (env : Env) (c : EngineCall) (s : ExecState) :
    engineCall env c s = Except.ok (env.respond s.idx c,
      { s with idx := s.idx + 1, trace := s.trace ++ [(c, (env.respond s.idx c).code)] }) := rfl

theorem bind_engineCall_apply {β : Type} (env : Env) (c : EngineCall) (k : Response → JS β)
    (s : ExecState) :
    JS.bind (engineCall env c) k s = k (env.respond s.idx c)
      { s with idx := s.idx + 1, trace := s.trace ++ [(c, (env.respond s.idx c).code)] } := rfl

theorem CHECK_RESULT_apply (env : Env) (r : Int) (s : ExecState) :
    CHECK_RESULT env r s = if r ≠ FMOD.OK then
      Except.error ("Error!!! '" ++ env.errorString r ++ "'",
        { s with alerts := s.alerts ++ ["Error!!! '" ++ env.errorString r ++ "'"] })
    else Except.ok ((), s) := rfl

theorem bind_CHECK_apply {β : Type} (env : Env) (r : Int) (k : Unit → JS β) (s : ExecState) :
    JS.bind (CHECK_RESULT env r) k s = if r ≠ FMOD.OK then
      Except.error ("Error!!! '" ++ env.errorString r ++ "'",
        { s with alerts := s.alerts ++ ["Error!!! '" ++ env.errorString r ++ "'"] })
    else k () s := by
  unfold JS.bind CHECK_RESULT
  by_cases h : r ≠ FMOD.OK
  · simp only [if_pos h]
  · simp only [if_neg h]

theorem bind_ite_apply {α β : Type} (c : Prop) [Decidable c] (m₁ m₂ : JS α) (k : α → JS β)
    (s : ExecState) :
    JS.bind (if c then m₁ else m₂) k s = if c then JS.bind m₁ k s else JS.bind m₂ k s := by
  by_cases h : c
  · simp only [if_pos h]
  · simp only [if_neg h]

theorem consoleLog_apply (msg : String) (s : ExecState) :
    consoleLog msg s = Except.ok ((), { s with logs := s.logs ++ [msg] }) := rfl

theorem bind_consoleLog_apply {β : Type} (msg : String) (k : Unit → JS β) (s : ExecState) :
    JS.bind (consoleLog msg) k s = k () { s with logs := s.logs ++ [msg] } := rfl

theorem getGlobals_apply (s : ExecState) : getGlobals s = Except.ok (s.globals, s) := rfl

theorem bind_getGlobals_apply {β : Type} (k : Globals → JS β) (s : ExecState) :
    JS.bind getGlobals k s = k s.globals s := rfl

theorem modifyGlobals_apply (f : Globals → Globals) (s : ExecState) :
    modifyGlobals f s = Except.ok ((), { s with globals := f s.globals }) := rfl

theorem bind_modifyGlobals_apply {β : Type} (f : Globals → Globals) (k : Unit → JS β)
    (s : ExecState) :
    JS.bind (modifyGlobals f) k s = k () { s with globals := f s.globals } := rfl

theorem setDisplayOut_apply (v : String) (s : ExecState) :
    setDisplayOut v s = Except.ok ((), { s with displayOut := v }) := rfl

theorem bind_setDisplayOut_apply {β : Type} (v : String) (k : Unit → JS β) (s : ExecState) :
    JS.bind (setDisplayOut v) k s = k () { s with displayOut := v } := rfl

theorem setDisplayOut2_apply (v : String) (s : ExecState) :
    setDisplayOut2 v s = Except.ok ((), { s with displayOut2 := v }) := rfl

theorem bind_setDisplayOut2_apply {β : Type} (v : String) (k : Unit → JS β) (s : ExecState) :
    JS.bind (setDisplayOut2 v) k s = k () { s with displayOut2 := v } := rfl

theorem setElementDisabled_apply (id : String) (b : Bool) (s : ExecState) :
    setElementDisabled id b s =
      Except.ok ((), { s with domDisabled := s.domDisabled ++ [(id, b)] }) := rfl

theorem bind_setElementDisabled_apply {β : Type} (id : String) (b : Bool) (k : Unit → JS β)
    (s : ExecState) :
    JS.bind (setElementDisabled id b) k s =
      k () { s with domDisabled := s.domDisabled ++ [(id, b)] } := rfl

theorem setIntervalTimer_apply (cb : String) (ms : Nat) (s : ExecState) :
    setIntervalTimer cb ms s = Except.ok ((), { s with timers := s.timers ++ [(cb, ms)] }) := rfl

theorem bind_setIntervalTimer_apply {β : Type} (cb : String) (ms : Nat) (k : Unit → JS β)
    (s : ExecState) :
    JS.bind (setIntervalTimer cb ms) k s = k () { s with timers := s.timers ++ [(cb, ms)] } := rfl

theorem addListener_apply (name : String) (s : ExecState) :
    addListener name s = Except.ok ((), { s with listeners := s.listeners ++ [name] }) := rfl

theorem bind_addListener_apply {β : Type} (name : String) (k : Unit → JS β) (s : ExecState) :
    JS.bind (addListener name) k s = k () { s with listeners := s.listeners ++ [name] } := rfl

theorem stateAfter_of_ok {α : Type} {m : JS α} {s : ExecState} {a : α} {s₁ : ExecState}
    (h : m s = Except.ok (a, s₁)) : stateAfter m s = s₁ := by
  unfold stateAfter
  rw [h]

theorem stateAfter_of_error {α : Type} {m : JS α} {s : ExecState} {msg : String}
    {s₁ : ExecState} (h : m s = Except.error (msg, s₁)) : stateAfter m s = s₁ := by
  unfold stateAfter
  rw [h]

theorem stateAfter_bind {α β : Type} (m : JS α) (f : α → JS β) (s : ExecState) :
    stateAfter (m >>= f) s = (match m s with
      | Except.ok (a, s₁) => stateAfter (f a) s₁
      | Except.error (_, s₁) => s₁) := by
  rw [jsBind_def]
  unfold stateAfter JS.bind
  cases m s with
  | ok x =>
    obtain ⟨a, s₁⟩ := x
    rfl
  | error e =>
    obtain ⟨msg, s₁⟩ := e
    rfl

/-- C1: CHECK_RESULT returns with no effect on FMOD.OK; on any other
result it records the alert of the error message (which carries the
engine's error string) and throws that same message, and a thrown check
aborts whatever computation is bound after it. -/
theorem claim_C1 : ∀ (env : Env) (r : Int),
    (r = FMOD.OK → ∀ s, CHECK_RESULT env r s = Except.ok ((), s)) ∧
    (r ≠ FMOD.OK → ∀ s, CHECK_RESULT env r s =
      Except.error ("Error!!! '" ++ env.errorString r ++ "'",
        { s with alerts := s.alerts ++ ["Error!!! '" ++ env.errorString r ++ "'"] })) ∧
    (r ≠ FMOD.OK → ∀ (β : Type) (f : Unit → JS β) (s : ExecState),
      (CHECK_RESULT env r >>= f) s =
      Except.error ("Error!!! '" ++ env.errorString r ++ "'",
        { s with alerts := s.alerts ++ ["Error!!! '" ++ env.errorString r ++ "'"] })) := by
  intro env r
  refine ⟨?_, ?_, ?_⟩
  · intro h s
    simp [CHECK_RESULT, h]
  · intro h s
    simp [CHECK_RESULT, h]
  · intro h β f s
    simp [jsBind_def, JS.bind, CHECK_RESULT, h]

/-- C1 witness: the two behaviours at concrete inputs, by the theorem. -/
theorem claim_C1_witness :
    CHECK_RESULT envOK 0 ExecState0 = Except.ok ((), ExecState0) ∧
    CHECK_RESULT envOK 1 ExecState0 =
      Except.error ("Error!!! '" ++ envOK.errorString 1 ++ "'",
        { ExecState0 with alerts := ExecState0.alerts ++
            ["Error!!! '" ++ envOK.errorString 1 ++ "'"] }) :=
  ⟨(claim_C1 envOK 0).1 rfl ExecState0,
   (claim_C1 envOK 1).2.1 (by decide) ExecState0⟩

/-- C5: the three files' per-tick update functions are the same function
of the engine oracle: the three embeddings are definitionally equal. -/
theorem claim_C5 :
    SimpleEvent.updateApplication = MusicCallbacks.updateApplication ∧
    MusicCallbacks.updateApplication = Part000.updateApplication :=
  ⟨rfl, rfl⟩

/-- C8: a soundid outside the handled set (outside 0-3 in simple_event.js,
outside 0-1 in part_000) makes playEvent return at once with the state
untouched: no engine call, no error, no change. -/
theorem claim_C8 : ∀ (env : Env) (s : ExecState) (soundid : Int),
    (soundid ≠ 0 → soundid ≠ 1 → soundid ≠ 2 → soundid ≠ 3 →
      SimpleEvent.playEvent env soundid s = Except.ok ((), s)) ∧
    (soundid ≠ 0 → soundid ≠ 1 →
      Part000.playEvent env soundid s = Except.ok ((), s)) := by
  intro env s soundid
  constructor
  · intro h0 h1 h2 h3
    simp [SimpleEvent.playEvent, h0, h1, h2, h3, jsPure_def, JS.pure]
  · intro h0 h1
    simp [Part000.playEvent, h0, h1, jsPure_def, JS.pure]

/-- C3: a successful updateApplication tick extends the trace by exactly
the five statistics queries (CPU usage, channels playing, DSP buffer size,
software format, driver info) followed by a single System::update, which
is its final engine call and its only update call. -/
theorem claim_C3 : ∀ (env : Env) (s : ExecState) (v : Unit) (s₁ : ExecState),
    SimpleEvent.updateApplication env s = Except.ok (v, s₁) →
    s₁.trace = s.trace ++ updateTickCalls ∧
    (updateTickCalls.map Prod.fst).count EngineCall.systemUpdate = 1 ∧
    (updateTickCalls.map Prod.fst).getLast? = some EngineCall.systemUpdate := by
  intro env s v s₁ h
  refine ⟨?_, by rfl, by rfl⟩
  unfold SimpleEvent.updateApplication at h
  simp only [jsBind_def, jsPure_def, jsBind_assoc, consoleLogFmt, bind_pure_apply,
    bind_engineCall_apply, bind_CHECK_apply, bind_ite_apply, bind_consoleLog_apply,
    bind_getGlobals_apply, bind_modifyGlobals_apply, bind_setDisplayOut_apply,
    bind_setDisplayOut2_apply, bind_setElementDisabled_apply, bind_setIntervalTimer_apply,
    bind_addListener_apply, jsPure_apply, CHECK_RESULT_apply, consoleLog_apply,
    setElementDisabled_apply, modifyGlobals_apply, setIntervalTimer_apply, ite_apply] at h
  repeat' first
  | (simp_all only [Except.ok.injEq, Prod.mk.injEq, reduceCtorEq, ne_eq, not_not,
      updateTickCalls, List.append_assoc, List.cons_append, List.nil_append,
      List.singleton_append, true_and, and_true])
  | (split at h)
  rw [← h]

/-- C3 witness: a concrete all-OK tick, via the theorem. -/
theorem claim_C3_witness :
    SimpleEvent.updateApplication envOK ExecState0 =
      Except.ok ((), stateAfter (SimpleEvent.updateApplication envOK) ExecState0) ∧
    (stateAfter (SimpleEvent.updateApplication envOK) ExecState0).trace =
      ExecState0.trace ++ updateTickCalls :=
  ⟨rfl, (claim_C3 envOK ExecState0 () _ rfl).1⟩

/-- C10: markerCallback returns FMOD.OK whenever it returns at all, and on
a callback type outside the four it recognizes it takes no branch: it
returns FMOD.OK with the state untouched. -/
theorem claim_C10 : ∀ (env : Env) (type event : Int) (p : CallbackParams) (s : ExecState),
    (∀ v s₁, MusicCallbacks.markerCallback env type event p s = Except.ok (v, s₁) →
      v = FMOD.OK) ∧
    (type ≠ FMOD.STUDIO_EVENT_CALLBACK_TIMELINE_MARKER →
     type ≠ FMOD.STUDIO_EVENT_CALLBACK_TIMELINE_BEAT →
     type ≠ FMOD.STUDIO_EVENT_CALLBACK_SOUND_PLAYED →
     type ≠ FMOD.STUDIO_EVENT_CALLBACK_SOUND_STOPPED →
      MusicCallbacks.markerCallback env type event p s = Except.ok (FMOD.OK, s)) := by
  intro env type event p s
  constructor
  · intro v s₁ h
    unfold MusicCallbacks.markerCallback at h
    simp only [jsBind_def, jsPure_def, jsBind_assoc, consoleLogFmt, bind_pure_apply,
      bind_engineCall_apply, bind_CHECK_apply, bind_ite_apply, bind_consoleLog_apply,
      jsPure_apply, CHECK_RESULT_apply, consoleLog_apply, ite_apply] at h
    repeat' first
    | (simp_all only [bind_consoleLog_apply, bind_pure_apply, bind_engineCall_apply,
        bind_CHECK_apply, bind_ite_apply, jsPure_apply, Except.ok.injEq, Prod.mk.injEq,
        reduceCtorEq, ne_eq, not_not, true_and, and_true])
    | (split at h)
  · intro h1 h2 h3 h4
    unfold MusicCallbacks.markerCallback
    simp [jsBind_def, jsPure_def, bind_ite_apply, bind_pure_apply, jsPure_apply,
      bind_consoleLog_apply, h1, h2, h3, h4]

theorem cbframe_bind {α β : Type} {m : JS α} {f : α → JS β}
    (hm : CbFrame m) (hf : ∀ a, CbFrame (f a)) : CbFrame (m >>= f) := by
  intro s
  rw [stateAfter_bind]
  cases hms : m s with
  | ok x =>
    obtain ⟨a, s₁⟩ := x
    have h1 := hm s
    rw [stateAfter_of_ok hms] at h1
    obtain ⟨hg1, ht1, hd1, he1, hb1, t₁, htr₁, ha₁⟩ := h1
    obtain ⟨hg2, ht2, hd2, he2, hb2, t₂, htr₂, ha₂⟩ := hf a s₁
    refine ⟨hg2.trans hg1, ht2.trans ht1, hd2.trans hd1, he2.trans he1, hb2.trans hb1,
      t₁ ++ t₂, ?_, ?_⟩
    · rw [htr₂, htr₁, List.append_assoc]
    · simp [List.all_append, ha₁, ha₂]
  | error e =>
    obtain ⟨msg, s₁⟩ := e
    have h1 := hm s
    rw [stateAfter_of_error hms] at h1
    exact h1

theorem cbframe_engineCall (env : Env) (c : EngineCall) (hc : readOnlyCall c = true) :
    CbFrame (engineCall env c) := by
  intro s
  rw [stateAfter_of_ok (engineCall_apply env c s)]
  exact ⟨rfl, rfl, rfl, rfl, rfl, [(c, (env.respond s.idx c).code)], rfl, by simp [hc]⟩

theorem cbframe_CHECK (env : Env) (r : Int) : CbFrame (CHECK_RESULT env r) := by
  intro s
  by_cases h : r ≠ FMOD.OK
  · rw [stateAfter_of_error (by rw [CHECK_RESULT_apply, if_pos h])]
    exact ⟨rfl, rfl, rfl, rfl, rfl, [], by simp, rfl⟩
  · rw [stateAfter_of_ok (by rw [CHECK_RESULT_apply, if_neg h])]
    exact ⟨rfl, rfl, rfl, rfl, rfl, [], by simp, rfl⟩

theorem cbframe_consoleLog (msg : String) : CbFrame (consoleLog msg) := by
  intro s
  rw [stateAfter_of_ok (consoleLog_apply msg s)]
  exact ⟨rfl, rfl, rfl, rfl, rfl, [], by simp, rfl⟩

theorem cbframe_consoleLogFmt (fmt : String) (args : List String) :
    CbFrame (consoleLogFmt fmt args) :=
  cbframe_consoleLog _

theorem cbframe_pure {α : Type} (a : α) : CbFrame (pure a : JS α) := by
  intro s
  rw [jsPure_def, stateAfter_of_ok (jsPure_apply a s)]
  exact ⟨rfl, rfl, rfl, rfl, rfl, [], by simp, rfl⟩

theorem cbframe_ite {α : Type} (c : Prop) [Decidable c] {m₁ m₂ : JS α}
    (h1 : CbFrame m₁) (h2 : CbFrame m₂) : CbFrame (if c then m₁ else m₂) := by
  by_cases h : c
  · simpa only [if_pos h] using h1
  · simpa only [if_neg h] using h2

theorem cbframe_markerCallback (env : Env) (type event : Int) (p : CallbackParams) :
    CbFrame (MusicCallbacks.markerCallback env type event p) := by
  unfold MusicCallbacks.markerCallback
  apply cbframe_ite
  · apply cbframe_bind (cbframe_consoleLogFmt _ _)
    intro _
    exact cbframe_pure _
  · apply cbframe_ite
    · apply cbframe_bind (cbframe_consoleLogFmt _ _)
      intro _
      exact cbframe_pure _
    · apply cbframe_ite
      · apply cbframe_bind (cbframe_engineCall env (soundGetName p.sound) rfl)
        intro n
        apply cbframe_bind (cbframe_CHECK env _)
        intro _
        apply cbframe_bind
          (cbframe_engineCall env (soundGetLength p.sound FMOD.TIMEUNIT_MS) rfl)
        intro len
        apply cbframe_bind (cbframe_CHECK env _)
        intro _
        apply cbframe_bind (cbframe_consoleLogFmt _ _)
        intro _
        exact cbframe_pure _
      · exact cbframe_pure _

/-- C6: whatever the callback type and arguments, markerCallback leaves
every global variable, the timers, both display fields and the button
states untouched, and the only engine calls it makes are the read-only
queries on its sound argument (Sound::getName, Sound::getLength). -/
theorem claim_C6 : ∀ (env : Env) (type event : Int) (p : CallbackParams) (s : ExecState),
    (stateAfter (MusicCallbacks.markerCallback env type event p) s).globals = s.globals ∧
    (stateAfter (MusicCallbacks.markerCallback env type event p) s).timers = s.timers ∧
    (stateAfter (MusicCallbacks.markerCallback env type event p) s).displayOut = s.displayOut ∧
    (stateAfter (MusicCallbacks.markerCallback env type event p) s).displayOut2 = s.displayOut2 ∧
    (stateAfter (MusicCallbacks.markerCallback env type event p) s).domDisabled = s.domDisabled ∧
    (((stateAfter (MusicCallbacks.markerCallback env type event p) s).trace.drop
        s.trace.length).all (fun q => readOnlyCall q.1)) = true := by
  intro env type event p s
  obtain ⟨hg, ht, hd, he, hb, t, htr, hall⟩ := cbframe_markerCallback env type event p s
  refine ⟨hg, ht, hd, he, hb, ?_⟩
  rw [htr, List.drop_left]
  exact hall

theorem abortsOn_of_ok {α : Type} {m : JS α} {s : ExecState} {a : α} {s₁ : ExecState}
    (h : m s = Except.ok (a, s₁)) : AbortsOn m s = (allOk s₁.trace = true) := by
  unfold AbortsOn
  rw [h]

theorem abortsOn_of_error {α : Type} {m : JS α} {s : ExecState} {msg : String}
    {s₁ : ExecState} (h : m s = Except.error (msg, s₁)) :
    AbortsOn m s = (failedLast s₁.trace = true) := by
  unfold AbortsOn
  rw [h]

theorem failedLast_cons_of_ne {p : EngineCall × Int} {u : List (EngineCall × Int)}
    (hu : u ≠ []) : failedLast (p :: u) = ((p.2 == FMOD.OK) && failedLast u) := by
  cases u with
  | nil => exact absurd rfl hu
  | cons q t => rfl

theorem failedLast_append_of_allOk {t : List (EngineCall × Int)} {c : EngineCall} {code : Int}
    (ht : allOk t = true) (hc : ¬code = FMOD.OK) : failedLast (t ++ [(c, code)]) = true := by
  induction t with
  | nil =>
    show failedLast [(c, code)] = true
    simp only [failedLast, bne_iff_ne, ne_eq, decide_eq_true_eq]
    exact hc
  | cons p t ih =>
    rw [List.cons_append, failedLast_cons_of_ne (by simp)]
    unfold allOk at ht
    rw [List.all_cons, Bool.and_eq_true] at ht
    rw [ih ht.2, ht.1]
    rfl

theorem allOk_append_ok {t : List (EngineCall × Int)} {c : EngineCall}
    (ht : allOk t = true) : allOk (t ++ [(c, FMOD.OK)]) = true := by
  unfold allOk at ht ⊢
  rw [List.all_append, ht]
  rfl

theorem aborts_bind {α β : Type} {m : JS α} {f : α → JS β}
    (hm : Aborts m) (hf : ∀ a, Aborts (f a)) : Aborts (m >>= f) := by
  intro s hs
  cases hms : m s with
  | ok x =>
    obtain ⟨a, s₁⟩ := x
    have h1 := hm s hs
    rw [abortsOn_of_ok hms] at h1
    have h2 := hf a s₁ h1
    have e : (m >>= f) s = f a s₁ := by
      rw [jsBind_def]
      unfold JS.bind
      rw [hms]
    unfold AbortsOn at h2 ⊢
    rw [e]
    exact h2
  | error e0 =>
    obtain ⟨msg, s₁⟩ := e0
    have h1 := hm s hs
    rw [abortsOn_of_error hms] at h1
    have e : (m >>= f) s = Except.error (msg, s₁) := by
      rw [jsBind_def]
      unfold JS.bind
      rw [hms]
    rw [abortsOn_of_error e]
    exact h1

theorem aborts_ite {α : Type} (c : Prop) [Decidable c] {m₁ m₂ : JS α}
    (h1 : Aborts m₁) (h2 : Aborts m₂) : Aborts (if c then m₁ else m₂) := by
  by_cases h : c
  · simpa only [if_pos h] using h1
  · simpa only [if_neg h] using h2

theorem aborts_consoleLog (msg : String) : Aborts (consoleLog msg) := by
  intro s hs
  rw [abortsOn_of_ok (consoleLog_apply msg s)]
  exact hs

theorem aborts_getGlobals : Aborts getGlobals := by
  intro s hs
  rw [abortsOn_of_ok (getGlobals_apply s)]
  exact hs

theorem aborts_modifyGlobals (f : Globals → Globals) : Aborts (modifyGlobals f) := by
  intro s hs
  rw [abortsOn_of_ok (modifyGlobals_apply f s)]
  exact hs

theorem aborts_setDisplayOut (v : String) : Aborts (setDisplayOut v) := by
  intro s hs
  rw [abortsOn_of_ok (setDisplayOut_apply v s)]
  exact hs

theorem aborts_setDisplayOut2 (v : String) : Aborts (setDisplayOut2 v) := by
  intro s hs
  rw [abortsOn_of_ok (setDisplayOut2_apply v s)]
  exact hs

theorem aborts_setElementDisabled (id : String) (b : Bool) : Aborts (setElementDisabled id b) := by
  intro s hs
  rw [abortsOn_of_ok (setElementDisabled_apply id b s)]
  exact hs

theorem aborts_setIntervalTimer (cb : String) (ms : Nat) : Aborts (setIntervalTimer cb ms) := by
  intro s hs
  rw [abortsOn_of_ok (setIntervalTimer_apply cb ms s)]
  exact hs

theorem aborts_addListener (name : String) : Aborts (addListener name) := by
  intro s hs
  rw [abortsOn_of_ok (addListener_apply name s)]
  exact hs

theorem aborts_pure {α : Type} (a : α) : Aborts (pure a : JS α) := by
  intro s hs
  rw [jsPure_def, abortsOn_of_ok (jsPure_apply a s)]
  exact hs

theorem aborts_checkedCall {β : Type} (env : Env) (c : EngineCall) {f : Response → JS β}
    (hf : ∀ r, Aborts (f r)) :
    Aborts (engineCall env c >>= fun r => CHECK_RESULT env r.code >>= fun x => f r) := by
  intro s hs
  unfold AbortsOn
  simp only [jsBind_def, bind_engineCall_apply, bind_CHECK_apply]
  by_cases h : ¬(env.respond s.idx c).code = FMOD.OK
  · rw [if_pos h]
    show failedLast (s.trace ++ [(c, (env.respond s.idx c).code)]) = true
    exact failedLast_append_of_allOk hs h
  · rw [if_neg h]
    push_neg at h
    have hs' : allOk ({ s with idx := s.idx + 1, trace := s.trace ++ [(c, (env.respond s.idx c).code)] } : ExecState).trace = true := by
      show allOk (s.trace ++ [(c, (env.respond s.idx c).code)]) = true
      rw [h]
      exact allOk_append_ok hs
    exact hf (env.respond s.idx c) _ hs'

theorem aborts_checkedCall_last (env : Env) (c : EngineCall) :
    Aborts (engineCall env c >>= fun r => CHECK_RESULT env r.code) := by
  intro s hs
  unfold AbortsOn
  simp only [jsBind_def, bind_engineCall_apply, CHECK_RESULT_apply]
  by_cases h : ¬(env.respond s.idx c).code = FMOD.OK
  · rw [if_pos h]
    show failedLast (s.trace ++ [(c, (env.respond s.idx c).code)]) = true
    exact failedLast_append_of_allOk hs h
  · rw [if_neg h]
    push_neg at h
    show allOk (s.trace ++ [(c, (env.respond s.idx c).code)]) = true
    rw [h]
    exact allOk_append_ok hs

theorem aborts_simpleEvent_loadBank (env : Env) (name : String) :
    Aborts (SimpleEvent.loadBank env name) := by
  unfold SimpleEvent.loadBank
  exact aborts_checkedCall_last env _

theorem aborts_simpleEvent_initApplication (env : Env) :
    Aborts (SimpleEvent.initApplication env) := by
  unfold SimpleEvent.initApplication
  apply aborts_bind (aborts_consoleLog _)
  intro _
  apply aborts_bind (aborts_simpleEvent_loadBank env _)
  intro _
  apply aborts_bind (aborts_simpleEvent_loadBank env _)
  intro _
  apply aborts_bind (aborts_simpleEvent_loadBank env _)
  intro _
  apply aborts_checkedCall env _
  intro d1
  apply aborts_checkedCall env _
  intro i1
  apply aborts_bind (aborts_modifyGlobals _)
  intro _
  apply aborts_checkedCall env _
  intro d2
  apply aborts_checkedCall env _
  intro i2
  apply aborts_bind (aborts_modifyGlobals _)
  intro _
  apply aborts_checkedCall env _
  intro d3
  apply aborts_bind (aborts_modifyGlobals _)
  intro _
  apply aborts_bind aborts_getGlobals
  intro g
  apply aborts_checkedCall env _
  intro r
  apply aborts_bind (aborts_setElementDisabled _ _)
  intro _
  apply aborts_bind (aborts_setElementDisabled _ _)
  intro _
  apply aborts_bind (aborts_setElementDisabled _ _)
  intro _
  exact aborts_setElementDisabled _ _

theorem aborts_simpleEvent_playEvent (env : Env) (soundid : Int) :
    Aborts (SimpleEvent.playEvent env soundid) := by
  unfold SimpleEvent.playEvent
  apply aborts_ite
  · apply aborts_bind aborts_getGlobals
    intro g
    apply aborts_checkedCall env _
    intro e
    apply aborts_checkedCall env _
    intro r1
    exact aborts_checkedCall_last env _
  · apply aborts_ite
    · apply aborts_bind aborts_getGlobals
      intro g
      exact aborts_checkedCall_last env _
    · apply aborts_ite
      · apply aborts_bind aborts_getGlobals
        intro g
        exact aborts_checkedCall_last env _
      · apply aborts_ite
        · apply aborts_bind aborts_getGlobals
          intro g
          exact aborts_checkedCall_last env _
        · exact aborts_pure _

theorem aborts_simpleEvent_updateApplication (env : Env) :
    Aborts (SimpleEvent.updateApplication env) := by
  unfold SimpleEvent.updateApplication
  apply aborts_checkedCall env _
  intro cpu
  apply aborts_checkedCall env _
  intro ch
  apply aborts_bind (aborts_setDisplayOut _)
  intro _
  apply aborts_checkedCall env _
  intro buf
  apply aborts_checkedCall env _
  intro rate
  apply aborts_checkedCall env _
  intro sysrate
  apply aborts_bind (aborts_setDisplayOut2 _)
  intro _
  exact aborts_checkedCall_last env _

theorem aborts_simpleEvent_main (env : Env) : Aborts (SimpleEvent.main env) := by
  unfold SimpleEvent.main
  apply aborts_bind (aborts_consoleLog _)
  intro _
  apply aborts_checkedCall env _
  intro sys
  apply aborts_bind (aborts_consoleLog _)
  intro _
  apply aborts_bind (aborts_modifyGlobals _)
  intro _
  apply aborts_checkedCall env _
  intro core
  apply aborts_bind (aborts_modifyGlobals _)
  intro _
  apply aborts_bind (aborts_consoleLog _)
  intro _
  apply aborts_checkedCall env _
  intro r1
  apply aborts_bind (aborts_consoleLog _)
  intro _
  apply aborts_checkedCall env _
  intro drv
  apply aborts_checkedCall env _
  intro r2
  apply aborts_bind (aborts_consoleLog _)
  intro _
  apply aborts_checkedCall env _
  intro r3
  apply aborts_bind (aborts_consoleLog _)
  intro _
  apply aborts_bind (aborts_simpleEvent_initApplication env)
  intro _
  apply aborts_bind (aborts_consoleLog _)
  intro _
  apply aborts_bind (aborts_setIntervalTimer _ _)
  intro _
  exact aborts_pure _

/-- C2: each multi-call operation of simple_event.js (main,
initApplication, playEvent, updateApplication) aborts at its first failed
engine call: started with an all-OK trace, it either succeeds with the
trace still all-OK, or throws with the failed call recorded last and no
call after it — no retry, no recovery, no further engine call. -/
theorem claim_C2 : ∀ (env : Env) (soundid : Int),
    Aborts (SimpleEvent.main env) ∧ Aborts (SimpleEvent.initApplication env) ∧
    Aborts (SimpleEvent.playEvent env soundid) ∧
    Aborts (SimpleEvent.updateApplication env) := by
  intro env soundid
  exact ⟨aborts_simpleEvent_main env, aborts_simpleEvent_initApplication env,
    aborts_simpleEvent_playEvent env soundid, aborts_simpleEvent_updateApplication env⟩

theorem sameHandles_refl (g : Globals) : sameHandles g g :=
  ⟨rfl, rfl, rfl, rfl, rfl, rfl, rfl⟩

theorem sameHandles_trans {g g₁ g₂ : Globals} (h1 : sameHandles g g₁)
    (h2 : sameHandles g₁ g₂) : sameHandles g g₂ := by
  obtain ⟨a1, b1, c1, d1, e1, f1, i1⟩ := h1
  obtain ⟨a2, b2, c2, d2, e2, f2, i2⟩ := h2
  exact ⟨a2.trans a1, b2.trans b1, c2.trans c1, d2.trans d1, e2.trans e1, f2.trans f1,
    i2.trans i1⟩

theorem handleFrame_bind {α β : Type} {m : JS α} {f : α → JS β}
    (hm : HandleFrame m) (hf : ∀ a, HandleFrame (f a)) : HandleFrame (m >>= f) := by
  intro s
  rw [stateAfter_bind]
  cases hms : m s with
  | ok x =>
    obtain ⟨a, s₁⟩ := x
    have h1 := hm s
    rw [stateAfter_of_ok hms] at h1
    exact sameHandles_trans h1 (hf a s₁)
  | error e =>
    obtain ⟨msg, s₁⟩ := e
    have h1 := hm s
    rw [stateAfter_of_error hms] at h1
    exact h1

theorem handleFrame_ite {α : Type} (c : Prop) [Decidable c] {m₁ m₂ : JS α}
    (h1 : HandleFrame m₁) (h2 : HandleFrame m₂) : HandleFrame (if c then m₁ else m₂) := by
  by_cases h : c
  · simpa only [if_pos h] using h1
  · simpa only [if_neg h] using h2

theorem handleFrame_engineCall (env : Env) (c : EngineCall) : HandleFrame (engineCall env c) := by
  intro s
  rw [stateAfter_of_ok (engineCall_apply env c s)]
  exact sameHandles_refl _

theorem handleFrame_CHECK (env : Env) (r : Int) : HandleFrame (CHECK_RESULT env r) := by
  intro s
  by_cases h : r ≠ FMOD.OK
  · rw [stateAfter_of_error (by rw [CHECK_RESULT_apply, if_pos h])]
    exact sameHandles_refl _
  · rw [stateAfter_of_ok (by rw [CHECK_RESULT_apply, if_neg h])]
    exact sameHandles_refl _

theorem handleFrame_consoleLog (msg : String) : HandleFrame (consoleLog msg) := by
  intro s
  rw [stateAfter_of_ok (consoleLog_apply msg s)]
  exact sameHandles_refl _

theorem handleFrame_getGlobals : HandleFrame getGlobals := by
  intro s
  rw [stateAfter_of_ok (getGlobals_apply s)]
  exact sameHandles_refl _

theorem handleFrame_setDisplayOut (v : String) : HandleFrame (setDisplayOut v) := by
  intro s
  rw [stateAfter_of_ok (setDisplayOut_apply v s)]
  exact sameHandles_refl _

theorem handleFrame_setDisplayOut2 (v : String) : HandleFrame (setDisplayOut2 v) := by
  intro s
  rw [stateAfter_of_ok (setDisplayOut2_apply v s)]
  exact sameHandles_refl _

theorem handleFrame_pure {α : Type} (a : α) : HandleFrame (pure a : JS α) := by
  intro s
  rw [jsPure_def, stateAfter_of_ok (jsPure_apply a s)]
  exact sameHandles_refl _

theorem handleFrame_modifyGlobals (f : Globals → Globals)
    (hf : ∀ g, sameHandles g (f g)) : HandleFrame (modifyGlobals f) := by
  intro s
  rw [stateAfter_of_ok (modifyGlobals_apply f s)]
  exact hf s.globals

theorem handleFrame_simpleEvent_playEvent (env : Env) (soundid : Int) :
    HandleFrame (SimpleEvent.playEvent env soundid) := by
  unfold SimpleEvent.playEvent
  apply handleFrame_ite
  · apply handleFrame_bind handleFrame_getGlobals
    intro g
    apply handleFrame_bind (handleFrame_engineCall env _)
    intro e
    apply handleFrame_bind (handleFrame_CHECK env _)
    intro _
    apply handleFrame_bind (handleFrame_engineCall env _)
    intro r1
    apply handleFrame_bind (handleFrame_CHECK env _)
    intro _
    apply handleFrame_bind (handleFrame_engineCall env _)
    intro r2
    exact handleFrame_CHECK env _
  · apply handleFrame_ite
    · apply handleFrame_bind handleFrame_getGlobals
      intro g
      apply handleFrame_bind (handleFrame_engineCall env _)
      intro r
      exact handleFrame_CHECK env _
    · apply handleFrame_ite
      · apply handleFrame_bind handleFrame_getGlobals
        intro g
        apply handleFrame_bind (handleFrame_engineCall env _)
        intro r
        exact handleFrame_CHECK env _
      · apply handleFrame_ite
        · apply handleFrame_bind handleFrame_getGlobals
          intro g
          apply handleFrame_bind (handleFrame_engineCall env _)
          intro r
          exact handleFrame_CHECK env _
        · exact handleFrame_pure _

theorem handleFrame_simpleEvent_updateApplication (env : Env) :
    HandleFrame (SimpleEvent.updateApplication env) := by
  unfold SimpleEvent.updateApplication
  apply handleFrame_bind (handleFrame_engineCall env _)
  intro cpu
  apply handleFrame_bind (handleFrame_CHECK env _)
  intro _
  apply handleFrame_bind (handleFrame_engineCall env _)
  intro ch
  apply handleFrame_bind (handleFrame_CHECK env _)
  intro _
  apply handleFrame_bind (handleFrame_setDisplayOut _)
  intro _
  apply handleFrame_bind (handleFrame_engineCall env _)
  intro buf
  apply handleFrame_bind (handleFrame_CHECK env _)
  intro _
  apply handleFrame_bind (handleFrame_engineCall env _)
  intro rate
  apply handleFrame_bind (handleFrame_CHECK env _)
  intro _
  apply handleFrame_bind (handleFrame_engineCall env _)
  intro sysrate
  apply handleFrame_bind (handleFrame_CHECK env _)
  intro _
  apply handleFrame_bind (handleFrame_setDisplayOut2 _)
  intro _
  apply handleFrame_bind (handleFrame_engineCall env _)
  intro r
  exact handleFrame_CHECK env _

theorem handleFrame_musicCallbacks_toggleProgression (env : Env) :
    HandleFrame (MusicCallbacks.toggleProgression env) := by
  unfold MusicCallbacks.toggleProgression
  refine handleFrame_bind (handleFrame_modifyGlobals _ ?_) ?_
  · intro g
    exact ⟨rfl, rfl, rfl, rfl, rfl, rfl, rfl⟩
  intro _
  apply handleFrame_bind handleFrame_getGlobals
  intro g
  apply handleFrame_bind (handleFrame_engineCall env _)
  intro r
  apply handleFrame_bind (handleFrame_CHECK env _)
  intro _
  exact handleFrame_consoleLog _

theorem handleFrame_part000_playEvent (env : Env) (soundid : Int) :
    HandleFrame (Part000.playEvent env soundid) := by
  unfold Part000.playEvent
  apply handleFrame_ite
  · apply handleFrame_bind handleFrame_getGlobals
    intro g
    apply handleFrame_bind (handleFrame_engineCall env _)
    intro r
    exact handleFrame_CHECK env _
  · apply handleFrame_ite
    · apply handleFrame_bind handleFrame_getGlobals
      intro g
      apply handleFrame_bind (handleFrame_engineCall env _)
      intro r
      exact handleFrame_CHECK env _
    · exact handleFrame_pure _

/-- C7: no UI action function and no per-tick update reassigns a global
handle variable: playEvent (both files), toggleProgression and the three
updateApplication functions leave gSystem, gSystemCore, the event
description/instance globals and the Progression parameter id exactly as
they found them, whether the call returns or throws. -/
theorem claim_C7 : ∀ (env : Env) (soundid : Int) (s : ExecState),
    sameHandles s.globals (stateAfter (SimpleEvent.playEvent env soundid) s).globals ∧
    sameHandles s.globals (stateAfter (MusicCallbacks.toggleProgression env) s).globals ∧
    sameHandles s.globals (stateAfter (SimpleEvent.updateApplication env) s).globals ∧
    sameHandles s.globals (stateAfter (MusicCallbacks.updateApplication env) s).globals ∧
    sameHandles s.globals (stateAfter (Part000.playEvent env soundid) s).globals ∧
    sameHandles s.globals (stateAfter (Part000.updateApplication env) s).globals := by
  intro env soundid s
  refine ⟨handleFrame_simpleEvent_playEvent env soundid s,
    handleFrame_musicCallbacks_toggleProgression env s,
    handleFrame_simpleEvent_updateApplication env s, ?_,
    handleFrame_part000_playEvent env soundid s, ?_⟩
  · exact handleFrame_simpleEvent_updateApplication env s
  · exact handleFrame_simpleEvent_updateApplication env s

theorem resumeAudio_of_true {env : Env} {s : ExecState}
    (h : s.globals.gAudioResumed = true) : Part000.resumeAudio env s = Except.ok ((), s) := by
  unfold Part000.resumeAudio
  simp [jsBind_def, bind_getGlobals_apply, ite_apply, h, jsPure_def, jsPure_apply]

theorem resumeClick_of_true {env : Env} {s : ExecState}
    (h : s.globals.gAudioResumed = true) : resumeClick env s = s := by
  unfold resumeClick
  rw [stateAfter_of_ok (resumeAudio_of_true h)]

theorem resumeClicks_of_true {env : Env} {s : ExecState} (n : Nat)
    (h : s.globals.gAudioResumed = true) : resumeClicks env n s = s := by
  induction n with
  | zero => rfl
  | succ n ih =>
    show resumeClicks env n (resumeClick env s) = s
    rw [resumeClick_of_true h]
    exact ih

theorem resumeAudio_ok_flag {env : Env} {s : ExecState} {v : Unit} {s₁ : ExecState}
    (h : Part000.resumeAudio env s = Except.ok (v, s₁)) :
    s₁.globals.gAudioResumed = true := by
  by_cases hb : s.globals.gAudioResumed = true
  · rw [resumeAudio_of_true hb] at h
    simp only [Except.ok.injEq, Prod.mk.injEq] at h
    rw [← h.2]
    exact hb
  · unfold Part000.resumeAudio at h
    simp only [jsBind_def, bind_getGlobals_apply, ite_apply, bind_engineCall_apply,
      bind_CHECK_apply, jsPure_apply, jsPure_def, modifyGlobals_apply] at h
    repeat' first
    | (simp_all only [bind_engineCall_apply, bind_CHECK_apply, jsPure_apply, jsPure_def,
        modifyGlobals_apply, Except.ok.injEq, Prod.mk.injEq, reduceCtorEq, ne_eq, not_not,
        not_true, true_and, and_true, Bool.not_eq_true, Bool.not_true, Bool.not_false])
    | (split at h)
    rw [← h]

theorem pairCount_append (t u : List (EngineCall × Int)) :
    pairCount (t ++ u) = pairCount t + pairCount u := by
  unfold pairCount
  rw [List.filter_append, List.length_append]

theorem resumeClick_of_false {env : Env} {s : ExecState}
    (h : s.globals.gAudioResumed = false) :
    (pairCount (resumeClick env s).trace = pairCount s.trace ∧
      (resumeClick env s).globals.gAudioResumed = false) ∨
    (pairCount (resumeClick env s).trace = pairCount s.trace + 1 ∧
      (resumeClick env s).globals.gAudioResumed = true) := by
  unfold resumeClick Part000.resumeAudio stateAfter
  simp only [jsBind_def, bind_getGlobals_apply, ite_apply, h, Bool.not_false,
    eq_self_iff_true, if_true, bind_engineCall_apply, bind_CHECK_apply, jsPure_def,
    jsPure_apply, modifyGlobals_apply]
  by_cases h1 : (env.respond s.idx mixerSuspend).code ≠ FMOD.OK
  · rw [if_pos h1]
    left
    constructor
    · show pairCount (s.trace ++ [(mixerSuspend, (env.respond s.idx mixerSuspend).code)]) =
        pairCount s.trace
      rw [pairCount_append]
      simp [pairCount]
    · exact h
  · rw [if_neg h1]
    by_cases h2 : (env.respond (s.idx + 1) mixerResume).code ≠ FMOD.OK
    · rw [if_pos h2]
      left
      constructor
      · show pairCount ((s.trace ++ [(mixerSuspend, (env.respond s.idx mixerSuspend).code)]) ++
            [(mixerResume, (env.respond (s.idx + 1) mixerResume).code)]) = pairCount s.trace
        rw [pairCount_append, pairCount_append]
        simp [pairCount, h2]
      · exact h
    · rw [if_neg h2]
      right
      push_neg at h1 h2
      constructor
      · show pairCount ((s.trace ++ [(mixerSuspend, (env.respond s.idx mixerSuspend).code)]) ++
            [(mixerResume, (env.respond (s.idx + 1) mixerResume).code)]) = pairCount s.trace + 1
        rw [h1, h2, pairCount_append, pairCount_append]
        simp [pairCount]
      · rfl

theorem pairCount_resumeClicks (env : Env) (n : Nat) : ∀ s : ExecState,
    pairCount (resumeClicks env n s).trace ≤
      pairCount s.trace + (if s.globals.gAudioResumed = true then 0 else 1) := by
  induction n with
  | zero =>
    intro s
    show pairCount s.trace ≤ _
    split
    · omega
    · omega
  | succ n ih =>
    intro s
    show pairCount (resumeClicks env n (resumeClick env s)).trace ≤ _
    by_cases hb : s.globals.gAudioResumed = true
    · rw [resumeClick_of_true hb, if_pos hb]
      have := ih s
      rw [if_pos hb] at this
      exact this
    · have hb' : s.globals.gAudioResumed = false := by
        cases hx : s.globals.gAudioResumed
        · rfl
        · exact absurd hx hb
      rw [if_neg hb]
      rcases @resumeClick_of_false env s hb' with ⟨hpc, hfl⟩ | ⟨hpc, hfl⟩
      · have := ih (resumeClick env s)
        rw [hfl] at this
        simp only [Bool.false_eq_true, if_neg, if_false] at this
        omega
      · have := ih (resumeClick env s)
        rw [hfl] at this
        simp only [eq_self_iff_true, if_true, if_pos] at this
        omega

/-- C9: the mixerSuspend/mixerResume pair runs at most once across any
number of resumeAudio invocations: once gAudioResumed is true every later
invocation is a no-op, a returning invocation always leaves the flag true,
and over any n clicks the number of completed suspend/resume pairs added
to the trace is at most one. -/
theorem claim_C9 : ∀ (env : Env) (n : Nat) (s : ExecState),
    (s.globals.gAudioResumed = true → resumeClicks env n s = s) ∧
    (∀ v s₁, Part000.resumeAudio env s = Except.ok (v, s₁) →
      s₁.globals.gAudioResumed = true) ∧
    pairCount (resumeClicks env n s).trace ≤ pairCount s.trace + 1 := by
  intro env n s
  refine ⟨fun h => resumeClicks_of_true n h, fun v s₁ h => resumeAudio_ok_flag h, ?_⟩
  have := pairCount_resumeClicks env n s
  split at this
  · omega
  · omega

theorem okRun_bind {α β : Type} {m : JS α} {f : α → JS β} {n₁ n₂ : Nat}
    {δ₁ δ₂ : Nat → Globals → List (EngineCall × Int)} {G₁ G₂ : Nat → Globals → Globals}
    {t₁ t₂ : List (String × Nat)}
    (hm : OkRun m n₁ δ₁ G₁ t₁) (hf : ∀ a, OkRun (f a) n₂ δ₂ G₂ t₂) :
    OkRun (m >>= f) (n₁ + n₂) (fun i g => δ₁ i g ++ δ₂ (i + n₁) (G₁ i g))
      (fun i g => G₂ (i + n₁) (G₁ i g)) (t₁ ++ t₂) := by
  intro s v s₁ h
  cases hms : m s with
  | ok x =>
    obtain ⟨a, s₂⟩ := x
    have e : (m >>= f) s = f a s₂ := by
      rw [jsBind_def]
      unfold JS.bind
      rw [hms]
    rw [e] at h
    obtain ⟨hi₁, ht₁, hg₁, hm₁⟩ := hm s a s₂ hms
    obtain ⟨hi₂, ht₂, hg₂, hm₂⟩ := hf a s₂ v s₁ h
    refine ⟨?_, ?_, ?_, ?_⟩
    · rw [hi₂, hi₁]
      omega
    · show s₁.trace = s.trace ++ (δ₁ s.idx s.globals ++ δ₂ (s.idx + n₁) (G₁ s.idx s.globals))
      rw [ht₂, ht₁, hi₁, hg₁, List.append_assoc]
    · show s₁.globals = G₂ (s.idx + n₁) (G₁ s.idx s.globals)
      rw [hg₂, hi₁, hg₁]
    · show s₁.timers = s.timers ++ (t₁ ++ t₂)
      rw [hm₂, hm₁, List.append_assoc]
  | error e0 =>
    obtain ⟨msg, s₂⟩ := e0
    have e : (m >>= f) s = Except.error (msg, s₂) := by
      rw [jsBind_def]
      unfold JS.bind
      rw [hms]
    rw [e] at h
    exact absurd h (by simp)

theorem okRun_mono {α : Type} {m : JS α} {n : Nat}
    {δ δ' : Nat → Globals → List (EngineCall × Int)} {G : Nat → Globals → Globals}
    {t t' : List (String × Nat)} (h : OkRun m n δ G t)
    (hδ : ∀ i g, δ i g = δ' i g) (ht : t = t') : OkRun m n δ' G t' := by
  intro s v s₁ hh
  obtain ⟨h1, h2, h3, h4⟩ := h s v s₁ hh
  refine ⟨h1, ?_, h3, ?_⟩
  · rw [h2, hδ]
  · rw [h4, ht]

theorem okRun_checkedCall {β : Type} (env : Env) (c : EngineCall) {f : Response → JS β}
    {n₂ : Nat} {δf : Response → Nat → Globals → List (EngineCall × Int)}
    {Gf : Response → Nat → Globals → Globals} {t₂ : List (String × Nat)}
    (hf : ∀ r, OkRun (f r) n₂ (δf r) (Gf r) t₂) :
    OkRun (engineCall env c >>= fun r => CHECK_RESULT env r.code >>= fun x => f r)
      (1 + n₂) (fun i g => (c, FMOD.OK) :: δf (env.respond i c) (i + 1) g)
      (fun i g => Gf (env.respond i c) (i + 1) g) t₂ := by
  intro s v s₁ h
  simp only [jsBind_def, bind_engineCall_apply, bind_CHECK_apply] at h
  by_cases hc : (env.respond s.idx c).code ≠ FMOD.OK
  · rw [if_pos hc] at h
    exact absurd h (by simp)
  · rw [if_neg hc] at h
    push_neg at hc
    obtain ⟨hi₂, ht₂, hg₂, hm₂⟩ := hf (env.respond s.idx c) _ v s₁ h
    refine ⟨?_, ?_, ?_, ?_⟩
    · rw [hi₂]
      show s.idx + 1 + n₂ = s.idx + (1 + n₂)
      omega
    · rw [ht₂]
      show (s.trace ++ [(c, (env.respond s.idx c).code)]) ++
          δf (env.respond s.idx c) (s.idx + 1) s.globals =
        s.trace ++ ((c, FMOD.OK) :: δf (env.respond s.idx c) (s.idx + 1) s.globals)
      rw [hc, List.append_assoc]
      rfl
    · rw [hg₂]
    · rw [hm₂]

theorem okRun_checkedCall_last (env : Env) (c : EngineCall) :
    OkRun (engineCall env c >>= fun r => CHECK_RESULT env r.code) 1
      (fun i g => [(c, FMOD.OK)]) (fun i g => g) [] := by
  intro s v s₁ h
  simp only [jsBind_def, bind_engineCall_apply, CHECK_RESULT_apply] at h
  by_cases hc : (env.respond s.idx c).code ≠ FMOD.OK
  · rw [if_pos hc] at h
    exact absurd h (by simp)
  · rw [if_neg hc] at h
    push_neg at hc
    simp only [Except.ok.injEq, Prod.mk.injEq] at h
    rw [← h.2]
    refine ⟨rfl, ?_, rfl, by simp⟩
    show s.trace ++ [(c, (env.respond s.idx c).code)] = s.trace ++ [(c, FMOD.OK)]
    rw [hc]

theorem okRun_zero {α : Type} {m : JS α}
    (hm : ∀ s v s₁, m s = Except.ok (v, s₁) →
      s₁.idx = s.idx ∧ s₁.trace = s.trace ∧ s₁.globals = s.globals ∧ s₁.timers = s.timers) :
    OkRun m 0 (fun _ _ => []) (fun _ g => g) [] := by
  intro s v s₁ h
  obtain ⟨h1, h2, h3, h4⟩ := hm s v s₁ h
  refine ⟨by rw [h1, Nat.add_zero], by rw [h2]; simp, h3, by rw [h4]; simp⟩

theorem okRun_consoleLog (msg : String) :
    OkRun (consoleLog msg) 0 (fun _ _ => []) (fun _ g => g) [] := by
  apply okRun_zero
  intro s v s₁ h
  rw [consoleLog_apply] at h
  simp only [Except.ok.injEq, Prod.mk.injEq] at h
  rw [← h.2]
  exact ⟨rfl, rfl, rfl, rfl⟩

theorem okRun_setElementDisabled (id : String) (b : Bool) :
    OkRun (setElementDisabled id b) 0 (fun _ _ => []) (fun _ g => g) [] := by
  apply okRun_zero
  intro s v s₁ h
  rw [setElementDisabled_apply] at h
  simp only [Except.ok.injEq, Prod.mk.injEq] at h
  rw [← h.2]
  exact ⟨rfl, rfl, rfl, rfl⟩

theorem okRun_addListener (name : String) :
    OkRun (addListener name) 0 (fun _ _ => []) (fun _ g => g) [] := by
  apply okRun_zero
  intro s v s₁ h
  rw [addListener_apply] at h
  simp only [Except.ok.injEq, Prod.mk.injEq] at h
  rw [← h.2]
  exact ⟨rfl, rfl, rfl, rfl⟩

theorem okRun_pure {α : Type} (a : α) :
    OkRun (pure a : JS α) 0 (fun _ _ => []) (fun _ g => g) [] := by
  apply okRun_zero
  intro s v s₁ h
  rw [jsPure_def, jsPure_apply] at h
  simp only [Except.ok.injEq, Prod.mk.injEq] at h
  rw [← h.2]
  exact ⟨rfl, rfl, rfl, rfl⟩

theorem okRun_modifyGlobals (f : Globals → Globals) :
    OkRun (modifyGlobals f) 0 (fun _ _ => []) (fun _ g => f g) [] := by
  intro s v s₁ h
  rw [modifyGlobals_apply] at h
  simp only [Except.ok.injEq, Prod.mk.injEq] at h
  rw [← h.2]
  refine ⟨rfl, by simp, rfl, by simp⟩

theorem okRun_setIntervalTimer (cb : String) (ms : Nat) :
    OkRun (setIntervalTimer cb ms) 0 (fun _ _ => []) (fun _ g => g) [(cb, ms)] := by
  intro s v s₁ h
  rw [setIntervalTimer_apply] at h
  simp only [Except.ok.injEq, Prod.mk.injEq] at h
  rw [← h.2]
  refine ⟨rfl, by simp, rfl, rfl⟩

theorem okRun_bind_getGlobals {β : Type} {f : Globals → JS β} {n₂ : Nat}
    {δf : Globals → Nat → Globals → List (EngineCall × Int)}
    {Gf : Globals → Nat → Globals → Globals} {t₂ : List (String × Nat)}
    (hf : ∀ g, OkRun (f g) n₂ (δf g) (Gf g) t₂) :
    OkRun (getGlobals >>= f) n₂ (fun i g => δf g i g) (fun i g => Gf g i g) t₂ := by
  intro s v s₁ h
  have e : (getGlobals >>= f) s = f s.globals s := by
    rw [jsBind_def]
    exact bind_getGlobals_apply f s
  rw [e] at h
  obtain ⟨h1, h2, h3, h4⟩ := hf s.globals s v s₁ h
  exact ⟨h1, h2, h3, h4⟩

theorem okRun_ite {α : Type} (c : Prop) [Decidable c] {m₁ m₂ : JS α} {n : Nat}
    {δ : Nat → Globals → List (EngineCall × Int)} {G : Nat → Globals → Globals}
    {t : List (String × Nat)} (h1 : OkRun m₁ n δ G t) (h2 : OkRun m₂ n δ G t) :
    OkRun (if c then m₁ else m₂) n δ G t := by
  by_cases h : c
  · simpa only [if_pos h] using h1
  · simpa only [if_neg h] using h2

theorem okRun_simpleEvent_loadBank (env : Env) (name : String) :
    OkRun (SimpleEvent.loadBank env name) 1
      (fun i g => [(loadBankFile ("/" ++ name) FMOD.STUDIO_LOAD_BANK_NORMAL, FMOD.OK)])
      (fun i g => g) [] := by
  unfold SimpleEvent.loadBank
  exact okRun_checkedCall_last env _

theorem okRun_part000_loadBank (env : Env) (name : String) :
    OkRun (Part000.loadBank env name) 1
      (fun i g => [(loadBankFile ("/" ++ name) FMOD.STUDIO_LOAD_BANK_NORMAL, FMOD.OK)])
      (fun i g => g) [] := by
  unfold Part000.loadBank
  exact okRun_checkedCall_last env _

theorem okRun_simpleEvent_initApplication (env : Env) :
    ∃ G, OkRun (SimpleEvent.initApplication env) 9
      (fun i g => simpleEventInitCalls env i) G [] := by
  have h := okRun_bind (okRun_consoleLog "Loading events\n") (fun _ =>
    okRun_bind (okRun_simpleEvent_loadBank env "Master.bank") (fun _ =>
    okRun_bind (okRun_simpleEvent_loadBank env "Master.strings.bank") (fun _ =>
    okRun_bind (okRun_simpleEvent_loadBank env "SFX.bank") (fun _ =>
    okRun_checkedCall env (getEvent "event:/Ambience/Country") (fun d1 =>
    okRun_checkedCall env (createInstance d1.out) (fun i1 =>
    okRun_bind (okRun_modifyGlobals (fun g => { g with loopingAmbienceInstance := i1.out }))
      (fun _ =>
    okRun_checkedCall env (getEvent "event:/UI/Cancel") (fun d2 =>
    okRun_checkedCall env (createInstance d2.out) (fun i2 =>
    okRun_bind (okRun_modifyGlobals (fun g => { g with cancelInstance := i2.out })) (fun _ =>
    okRun_checkedCall env (getEvent "event:/Weapons/Explosion") (fun d3 =>
    okRun_bind (okRun_modifyGlobals (fun g => { g with explosionDescription := d3.out }))
      (fun _ =>
    okRun_bind_getGlobals (fun g =>
    okRun_checkedCall env (loadSampleData g.explosionDescription) (fun r =>
    okRun_bind (okRun_setElementDisabled "playEvent0" false) (fun _ =>
    okRun_bind (okRun_setElementDisabled "playEvent1" false) (fun _ =>
    okRun_bind (okRun_setElementDisabled "playEvent2" false) (fun _ =>
    okRun_setElementDisabled "playEvent3" false)))))))))))))))))
  exact ⟨_, okRun_mono h (by intro i g; simp [simpleEventInitCalls, Nat.add_assoc]) rfl⟩

theorem okRun_part000_initApplication (env : Env) :
    ∃ G, OkRun (Part000.initApplication env) 4
      (fun i g => part000InitCalls env i) G [] := by
  have h := okRun_bind (okRun_consoleLog "Loading events\n") (fun _ =>
    okRun_bind (okRun_part000_loadBank env "Master.bank") (fun _ =>
    okRun_bind (okRun_part000_loadBank env "Master.strings.bank") (fun _ =>
    okRun_checkedCall env (getEvent "event:/Music") (fun d =>
    okRun_checkedCall env (createInstance d.out) (fun i =>
    okRun_bind (okRun_modifyGlobals (fun g => { g with loopingAmbienceInstance := i.out }))
      (fun _ =>
    okRun_bind (okRun_setElementDisabled "playEvent0" false) (fun _ =>
    okRun_setElementDisabled "playEvent1" false)))))))
  exact ⟨_, okRun_mono h (by intro i g; simp [part000InitCalls, Nat.add_assoc]) rfl⟩

set_option maxHeartbeats 8000000 in
theorem okRun_simpleEvent_main (env : Env) :
    ∃ G, OkRun (SimpleEvent.main env) 15
      (fun i g => mainSetupCalls env i ++ simpleEventInitCalls env (i + 6)) G
      [("updateApplication", 20)] := by
  obtain ⟨Gi, hI⟩ := okRun_simpleEvent_initApplication env
  have h := okRun_bind (okRun_consoleLog "Creating FMOD System object\n") (fun _ =>
    okRun_checkedCall env studioSystemCreate (fun sys =>
    okRun_bind (okRun_consoleLog "grabbing system object from temporary and storing it\n")
      (fun _ =>
    okRun_bind (okRun_modifyGlobals (fun g => { g with gSystem := sys.out })) (fun _ =>
    okRun_checkedCall env getCoreSystem (fun core =>
    okRun_bind (okRun_modifyGlobals (fun g => { g with gSystemCore := core.out })) (fun _ =>
    okRun_bind (okRun_consoleLog "set DSP Buffer size.\n") (fun _ =>
    okRun_checkedCall env (setDSPBufferSize 2048 2) (fun r1 =>
    okRun_bind (okRun_consoleLog "Set mixer sample rate") (fun _ =>
    okRun_checkedCall env (getDriverInfo 0) (fun drv =>
    okRun_checkedCall env (setSoftwareFormat drv.out FMOD.SPEAKERMODE_DEFAULT 0) (fun r2 =>
    okRun_bind (okRun_consoleLog "initialize FMOD\n") (fun _ =>
    okRun_checkedCall env (initFmod 1024 FMOD.STUDIO_INIT_NORMAL FMOD.INIT_NORMAL) (fun r3 =>
    okRun_bind (okRun_consoleLog "initialize Application\n") (fun _ =>
    okRun_bind hI (fun _ =>
    okRun_bind (okRun_consoleLog "Start game loop\n") (fun _ =>
    okRun_bind (okRun_setIntervalTimer "updateApplication" 20) (fun _ =>
    okRun_pure FMOD.OK)))))))))))))))))
  refine ⟨_, okRun_mono h ?_ ?_⟩
  · intro i g
    simp [mainSetupCalls, simpleEventInitCalls, Nat.add_assoc]
  · simp

set_option maxHeartbeats 8000000 in
theorem okRun_part000_main (env : Env) :
    ∃ G, OkRun (Part000.main env) 10
      (fun i g => mainSetupCalls env i ++ part000InitCalls env (i + 6)) G
      [("updateApplication", 20)] := by
  obtain ⟨Gi, hI⟩ := okRun_part000_initApplication env
  have h := okRun_bind (okRun_consoleLog "Creating FMOD System object\n") (fun _ =>
    okRun_checkedCall env studioSystemCreate (fun sys =>
    okRun_bind (okRun_consoleLog "grabbing system object from temporary and storing it\n")
      (fun _ =>
    okRun_bind (okRun_modifyGlobals (fun g => { g with gSystem := sys.out })) (fun _ =>
    okRun_checkedCall env getCoreSystem (fun core =>
    okRun_bind (okRun_modifyGlobals (fun g => { g with gSystemCore := core.out })) (fun _ =>
    okRun_bind (okRun_consoleLog "set DSP Buffer size.\n") (fun _ =>
    okRun_checkedCall env (setDSPBufferSize 2048 2) (fun r1 =>
    okRun_bind (okRun_consoleLog "Set mixer sample rate") (fun _ =>
    okRun_checkedCall env (getDriverInfo 0) (fun drv =>
    okRun_checkedCall env (setSoftwareFormat drv.out FMOD.SPEAKERMODE_DEFAULT 0) (fun r2 =>
    okRun_bind (okRun_consoleLog "initialize FMOD\n") (fun _ =>
    okRun_checkedCall env (initFmod 1024 FMOD.STUDIO_INIT_NORMAL FMOD.INIT_NORMAL) (fun r3 =>
    okRun_bind (okRun_consoleLog "initialize Application\n") (fun _ =>
    okRun_bind hI (fun _ =>
    okRun_ite (env.isIOS = true)
      (okRun_bind (okRun_addListener "touchend resumeAudio") (fun _ =>
        okRun_bind (okRun_consoleLog "Start game loop\n") (fun _ =>
        okRun_bind (okRun_setIntervalTimer "updateApplication" 20) (fun _ =>
        okRun_pure FMOD.OK))))
      (okRun_bind (okRun_addListener "click resumeAudio") (fun _ =>
        okRun_bind (okRun_consoleLog "Start game loop\n") (fun _ =>
        okRun_bind (okRun_setIntervalTimer "updateApplication" 20) (fun _ =>
        okRun_pure FMOD.OK)))))))))))))))))))
  refine ⟨_, okRun_mono h ?_ ?_⟩
  · intro i g
    simp [mainSetupCalls, part000InitCalls, Nat.add_assoc]
  · simp

theorem timerNeutral_of_ok {α : Type} {m : JS α}
    (h : ∀ s, ∃ v s₁, m s = Except.ok (v, s₁) ∧ s₁.timers = s.timers) :
    TimerNeutral m := by
  constructor
  · intro s v s₁ hh
    obtain ⟨v2, s2, he, ht⟩ := h s
    rw [he] at hh
    simp only [Except.ok.injEq, Prod.mk.injEq] at hh
    rw [← hh.2]
    exact ht
  · intro s msg s₁ hh
    obtain ⟨v2, s2, he, ht⟩ := h s
    rw [he] at hh
    exact absurd hh (by simp)

theorem timerNeutral_consoleLog (msg : String) : TimerNeutral (consoleLog msg) :=
  timerNeutral_of_ok (fun s => ⟨(), _, consoleLog_apply msg s, rfl⟩)

theorem timerNeutral_engineCall (env : Env) (c : EngineCall) :
    TimerNeutral (engineCall env c) :=
  timerNeutral_of_ok (fun s => ⟨_, _, engineCall_apply env c s, rfl⟩)

theorem timerNeutral_modifyGlobals (f : Globals → Globals) :
    TimerNeutral (modifyGlobals f) :=
  timerNeutral_of_ok (fun s => ⟨(), _, modifyGlobals_apply f s, rfl⟩)

theorem timerNeutral_getGlobals : TimerNeutral getGlobals :=
  timerNeutral_of_ok (fun s => ⟨s.globals, s, rfl, rfl⟩)

theorem timerNeutral_setElementDisabled (id : String) (b : Bool) :
    TimerNeutral (setElementDisabled id b) :=
  timerNeutral_of_ok (fun s => ⟨(), _, setElementDisabled_apply id b s, rfl⟩)

theorem timerNeutral_addListener (name : String) : TimerNeutral (addListener name) :=
  timerNeutral_of_ok (fun s => ⟨(), _, addListener_apply name s, rfl⟩)

theorem timerNeutral_CHECK (env : Env) (r : Int) : TimerNeutral (CHECK_RESULT env r) := by
  constructor
  · intro s v s₁ h
    rw [CHECK_RESULT_apply] at h
    by_cases hc : r ≠ FMOD.OK
    · rw [if_pos hc] at h
      exact absurd h (by simp)
    · rw [if_neg hc] at h
      simp only [Except.ok.injEq, Prod.mk.injEq] at h
      rw [← h.2]
  · intro s msg s₁ h
    rw [CHECK_RESULT_apply] at h
    by_cases hc : r ≠ FMOD.OK
    · rw [if_pos hc] at h
      simp only [Except.error.injEq, Prod.mk.injEq] at h
      rw [← h.2]
    · rw [if_neg hc] at h
      exact absurd h (by simp)

theorem timerNeutral_bind {α β : Type} {m : JS α} {f : α → JS β}
    (hm : TimerNeutral m) (hf : ∀ a, TimerNeutral (f a)) : TimerNeutral (m >>= f) := by
  constructor
  · intro s v s₁ h
    cases hms : m s with
    | ok x =>
      obtain ⟨a, s₂⟩ := x
      have e : (m >>= f) s = f a s₂ := by
        rw [jsBind_def]
        unfold JS.bind
        rw [hms]
      rw [e] at h
      rw [(hf a).1 s₂ v s₁ h, hm.1 s a s₂ hms]
    | error e0 =>
      obtain ⟨msg₂, s₂⟩ := e0
      have e : (m >>= f) s = Except.error (msg₂, s₂) := by
        rw [jsBind_def]
        unfold JS.bind
        rw [hms]
      rw [e] at h
      exact absurd h (by simp)
  · intro s msg s₁ h
    cases hms : m s with
    | ok x =>
      obtain ⟨a, s₂⟩ := x
      have e : (m >>= f) s = f a s₂ := by
        rw [jsBind_def]
        unfold JS.bind
        rw [hms]
      rw [e] at h
      rw [(hf a).2 s₂ msg s₁ h, hm.1 s a s₂ hms]
    | error e0 =>
      obtain ⟨msg₂, s₂⟩ := e0
      have e : (m >>= f) s = Except.error (msg₂, s₂) := by
        rw [jsBind_def]
        unfold JS.bind
        rw [hms]
      rw [e] at h
      simp only [Except.error.injEq, Prod.mk.injEq] at h
      rw [← h.2]
      exact hm.2 s msg₂ s₂ hms

theorem errTimer_bind {α β : Type} {m : JS α} {f : α → JS β}
    (hm : TimerNeutral m) (hf : ∀ a, ErrTimer (f a)) : ErrTimer (m >>= f) := by
  intro s msg s₁ h
  cases hms : m s with
  | ok x =>
    obtain ⟨a, s₂⟩ := x
    have e : (m >>= f) s = f a s₂ := by
      rw [jsBind_def]
      unfold JS.bind
      rw [hms]
    rw [e] at h
    rw [hf a s₂ msg s₁ h, hm.1 s a s₂ hms]
  | error e0 =>
    obtain ⟨msg₂, s₂⟩ := e0
    have e : (m >>= f) s = Except.error (msg₂, s₂) := by
      rw [jsBind_def]
      unfold JS.bind
      rw [hms]
    rw [e] at h
    simp only [Except.error.injEq, Prod.mk.injEq] at h
    rw [← h.2]
    exact hm.2 s msg₂ s₂ hms

theorem errTimer_ite {α : Type} (c : Prop) [Decidable c] {m₁ m₂ : JS α}
    (h1 : ErrTimer m₁) (h2 : ErrTimer m₂) : ErrTimer (if c then m₁ else m₂) := by
  by_cases h : c
  · simpa only [if_pos h] using h1
  · simpa only [if_neg h] using h2

theorem errTimer_interval_pure {α : Type} (cb : String) (ms : Nat) (a : α) :
    ErrTimer (setIntervalTimer cb ms >>= fun _ => pure a) := by
  intro s msg s₁ h
  simp only [jsBind_def, bind_setIntervalTimer_apply, jsPure_def, jsPure_apply] at h
  exact absurd h (by simp)

theorem timerNeutral_checkedCall_last (env : Env) (c : EngineCall) :
    TimerNeutral (engineCall env c >>= fun r => CHECK_RESULT env r.code) :=
  timerNeutral_bind (timerNeutral_engineCall env c) (fun r => timerNeutral_CHECK env r.code)

theorem timerNeutral_simpleEvent_loadBank (env : Env) (name : String) :
    TimerNeutral (SimpleEvent.loadBank env name) := by
  unfold SimpleEvent.loadBank
  exact timerNeutral_checkedCall_last env _

theorem timerNeutral_part000_loadBank (env : Env) (name : String) :
    TimerNeutral (Part000.loadBank env name) := by
  unfold Part000.loadBank
  exact timerNeutral_checkedCall_last env _

set_option maxHeartbeats 8000000 in
theorem timerNeutral_simpleEvent_initApplication (env : Env) :
    TimerNeutral (SimpleEvent.initApplication env) := by
  have h := timerNeutral_bind (timerNeutral_consoleLog "Loading events\n") (fun _ =>
    timerNeutral_bind (timerNeutral_simpleEvent_loadBank env "Master.bank") (fun _ =>
    timerNeutral_bind (timerNeutral_simpleEvent_loadBank env "Master.strings.bank") (fun _ =>
    timerNeutral_bind (timerNeutral_simpleEvent_loadBank env "SFX.bank") (fun _ =>
    timerNeutral_bind (timerNeutral_engineCall env (getEvent "event:/Ambience/Country"))
      (fun d1 =>
    timerNeutral_bind (timerNeutral_CHECK env d1.code) (fun _ =>
    timerNeutral_bind (timerNeutral_engineCall env (createInstance d1.out)) (fun i1 =>
    timerNeutral_bind (timerNeutral_CHECK env i1.code) (fun _ =>
    timerNeutral_bind
      (timerNeutral_modifyGlobals (fun g => { g with loopingAmbienceInstance := i1.out }))
      (fun _ =>
    timerNeutral_bind (timerNeutral_engineCall env (getEvent "event:/UI/Cancel")) (fun d2 =>
    timerNeutral_bind (timerNeutral_CHECK env d2.code) (fun _ =>
    timerNeutral_bind (timerNeutral_engineCall env (createInstance d2.out)) (fun i2 =>
    timerNeutral_bind (timerNeutral_CHECK env i2.code) (fun _ =>
    timerNeutral_bind
      (timerNeutral_modifyGlobals (fun g => { g with cancelInstance := i2.out })) (fun _ =>
    timerNeutral_bind (timerNeutral_engineCall env (getEvent "event:/Weapons/Explosion"))
      (fun d3 =>
    timerNeutral_bind (timerNeutral_CHECK env d3.code) (fun _ =>
    timerNeutral_bind
      (timerNeutral_modifyGlobals (fun g => { g with explosionDescription := d3.out }))
      (fun _ =>
    timerNeutral_bind timerNeutral_getGlobals (fun g =>
    timerNeutral_bind (timerNeutral_engineCall env (loadSampleData g.explosionDescription))
      (fun r =>
    timerNeutral_bind (timerNeutral_CHECK env r.code) (fun _ =>
    timerNeutral_bind (timerNeutral_setElementDisabled "playEvent0" false) (fun _ =>
    timerNeutral_bind (timerNeutral_setElementDisabled "playEvent1" false) (fun _ =>
    timerNeutral_bind (timerNeutral_setElementDisabled "playEvent2" false) (fun _ =>
    timerNeutral_setElementDisabled "playEvent3" false)))))))))))))))))))))))
  exact h

set_option maxHeartbeats 8000000 in
theorem timerNeutral_part000_initApplication (env : Env) :
    TimerNeutral (Part000.initApplication env) := by
  have h := timerNeutral_bind (timerNeutral_consoleLog "Loading events\n") (fun _ =>
    timerNeutral_bind (timerNeutral_part000_loadBank env "Master.bank") (fun _ =>
    timerNeutral_bind (timerNeutral_part000_loadBank env "Master.strings.bank") (fun _ =>
    timerNeutral_bind (timerNeutral_engineCall env (getEvent "event:/Music")) (fun d =>
    timerNeutral_bind (timerNeutral_CHECK env d.code) (fun _ =>
    timerNeutral_bind (timerNeutral_engineCall env (createInstance d.out)) (fun i =>
    timerNeutral_bind (timerNeutral_CHECK env i.code) (fun _ =>
    timerNeutral_bind
      (timerNeutral_modifyGlobals (fun g => { g with loopingAmbienceInstance := i.out }))
      (fun _ =>
    timerNeutral_bind (timerNeutral_setElementDisabled "playEvent0" false) (fun _ =>
    timerNeutral_setElementDisabled "playEvent1" false)))))))))
  exact h

set_option maxHeartbeats 8000000 in
theorem errTimer_simpleEvent_main (env : Env) : ErrTimer (SimpleEvent.main env) := by
  have h := errTimer_bind (timerNeutral_consoleLog "Creating FMOD System object\n") (fun _ =>
    errTimer_bind (timerNeutral_engineCall env studioSystemCreate) (fun sys =>
    errTimer_bind (timerNeutral_CHECK env sys.code) (fun _ =>
    errTimer_bind
      (timerNeutral_consoleLog "grabbing system object from temporary and storing it\n")
      (fun _ =>
    errTimer_bind (timerNeutral_modifyGlobals (fun g => { g with gSystem := sys.out }))
      (fun _ =>
    errTimer_bind (timerNeutral_engineCall env getCoreSystem) (fun core =>
    errTimer_bind (timerNeutral_CHECK env core.code) (fun _ =>
    errTimer_bind (timerNeutral_modifyGlobals (fun g => { g with gSystemCore := core.out }))
      (fun _ =>
    errTimer_bind (timerNeutral_consoleLog "set DSP Buffer size.\n") (fun _ =>
    errTimer_bind (timerNeutral_engineCall env (setDSPBufferSize 2048 2)) (fun r1 =>
    errTimer_bind (timerNeutral_CHECK env r1.code) (fun _ =>
    errTimer_bind (timerNeutral_consoleLog "Set mixer sample rate") (fun _ =>
    errTimer_bind (timerNeutral_engineCall env (getDriverInfo 0)) (fun drv =>
    errTimer_bind (timerNeutral_CHECK env drv.code) (fun _ =>
    errTimer_bind
      (timerNeutral_engineCall env (setSoftwareFormat drv.out FMOD.SPEAKERMODE_DEFAULT 0))
      (fun r2 =>
    errTimer_bind (timerNeutral_CHECK env r2.code) (fun _ =>
    errTimer_bind (timerNeutral_consoleLog "initialize FMOD\n") (fun _ =>
    errTimer_bind
      (timerNeutral_engineCall env (initFmod 1024 FMOD.STUDIO_INIT_NORMAL FMOD.INIT_NORMAL))
      (fun r3 =>
    errTimer_bind (timerNeutral_CHECK env r3.code) (fun _ =>
    errTimer_bind (timerNeutral_consoleLog "initialize Application\n") (fun _ =>
    errTimer_bind (timerNeutral_simpleEvent_initApplication env) (fun _ =>
    errTimer_bind (timerNeutral_consoleLog "Start game loop\n") (fun _ =>
    errTimer_interval_pure "updateApplication" 20 FMOD.OK))))))))))))))))))))))
  exact h

set_option maxHeartbeats 8000000 in
theorem errTimer_part000_main (env : Env) : ErrTimer (Part000.main env) := by
  have h := errTimer_bind (timerNeutral_consoleLog "Creating FMOD System object\n") (fun _ =>
    errTimer_bind (timerNeutral_engineCall env studioSystemCreate) (fun sys =>
    errTimer_bind (timerNeutral_CHECK env sys.code) (fun _ =>
    errTimer_bind
      (timerNeutral_consoleLog "grabbing system object from temporary and storing it\n")
      (fun _ =>
    errTimer_bind (timerNeutral_modifyGlobals (fun g => { g with gSystem := sys.out }))
      (fun _ =>
    errTimer_bind (timerNeutral_engineCall env getCoreSystem) (fun core =>
    errTimer_bind (timerNeutral_CHECK env core.code) (fun _ =>
    errTimer_bind (timerNeutral_modifyGlobals (fun g => { g with gSystemCore := core.out }))
      (fun _ =>
    errTimer_bind (timerNeutral_consoleLog "set DSP Buffer size.\n") (fun _ =>
    errTimer_bind (timerNeutral_engineCall env (setDSPBufferSize 2048 2)) (fun r1 =>
    errTimer_bind (timerNeutral_CHECK env r1.code) (fun _ =>
    errTimer_bind (timerNeutral_consoleLog "Set mixer sample rate") (fun _ =>
    errTimer_bind (timerNeutral_engineCall env (getDriverInfo 0)) (fun drv =>
    errTimer_bind (timerNeutral_CHECK env drv.code) (fun _ =>
    errTimer_bind
      (timerNeutral_engineCall env (setSoftwareFormat drv.out FMOD.SPEAKERMODE_DEFAULT 0))
      (fun r2 =>
    errTimer_bind (timerNeutral_CHECK env r2.code) (fun _ =>
    errTimer_bind (timerNeutral_consoleLog "initialize FMOD\n") (fun _ =>
    errTimer_bind
      (timerNeutral_engineCall env (initFmod 1024 FMOD.STUDIO_INIT_NORMAL FMOD.INIT_NORMAL))
      (fun r3 =>
    errTimer_bind (timerNeutral_CHECK env r3.code) (fun _ =>
    errTimer_bind (timerNeutral_consoleLog "initialize Application\n") (fun _ =>
    errTimer_bind (timerNeutral_part000_initApplication env) (fun _ =>
    errTimer_ite (env.isIOS = true)
      (errTimer_bind (timerNeutral_addListener "touchend resumeAudio") (fun _ =>
        errTimer_bind (timerNeutral_consoleLog "Start game loop\n") (fun _ =>
        errTimer_interval_pure "updateApplication" 20 FMOD.OK)))
      (errTimer_bind (timerNeutral_addListener "click resumeAudio") (fun _ =>
        errTimer_bind (timerNeutral_consoleLog "Start game loop\n") (fun _ =>
        errTimer_interval_pure "updateApplication" 20 FMOD.OK))))))))))))))))))))))))
  exact h

/-- C4: on a successful run, main of simple_event.js and of part_000 adds
to the trace exactly, and in order, the system create, core-system fetch,
DSP-buffer-size (2048 samples, 2 buffers), driver-rate read,
software-format set to that rate and 1024-channel engine-initialization
calls, followed by the application-setup calls, and registers exactly the
20 ms updateApplication interval timer; on a run that throws, no timer has
been registered, so the timer starts only after engine initialization (and
everything before it) succeeded. -/
theorem claim_C4 : ∀ (env : Env) (s : ExecState),
    (∀ v s₁, SimpleEvent.main env s = Except.ok (v, s₁) →
      s₁.trace = s.trace ++
        (mainSetupCalls env s.idx ++ simpleEventInitCalls env (s.idx + 6)) ∧
      s₁.timers = s.timers ++ [("updateApplication", 20)]) ∧
    (∀ msg s₁, SimpleEvent.main env s = Except.error (msg, s₁) →
      s₁.timers = s.timers) ∧
    (∀ v s₁, Part000.main env s = Except.ok (v, s₁) →
      s₁.trace = s.trace ++
        (mainSetupCalls env s.idx ++ part000InitCalls env (s.idx + 6)) ∧
      s₁.timers = s.timers ++ [("updateApplication", 20)]) ∧
    (∀ msg s₁, Part000.main env s = Except.error (msg, s₁) →
      s₁.timers = s.timers) := by
  intro env s
  obtain ⟨G1, h1⟩ := okRun_simpleEvent_main env
  obtain ⟨G2, h2⟩ := okRun_part000_main env
  refine ⟨fun v s₁ h => ?_, fun msg s₁ h => errTimer_simpleEvent_main env s msg s₁ h,
    fun v s₁ h => ?_, fun msg s₁ h => errTimer_part000_main env s msg s₁ h⟩
  · obtain ⟨_, ht, _, hm⟩ := h1 s v s₁ h
    exact ⟨ht, hm⟩
  · obtain ⟨_, ht, _, hm⟩ := h2 s v s₁ h
    exact ⟨ht, hm⟩
